import Mathlib

/-!
Shallow embedding of `src/draco/io/ply_decoder.cc` (PLY → point cloud / mesh
decoder) and verification of its specification.

Modelling conventions:
* A `PlyProperty` carries its declared primitive data type and its stored
  per-entry values.  Scalar per-entry values are modelled as `Int` (the raw
  numeric value held by the table); `PlyPropertyReader<T>::ReadValue` performs a
  value-preserving numeric conversion, modelled here as reading the stored
  value unchanged.  No claim depends on cross-type numeric conversion.
* A list-valued property is modelled by its per-entry value lists
  (`listEntries`); `GetListEntryOffset`/`GetListEntryNumValues` plus reading at
  `list_offset + k` in the source correspond, on a well-formed table, to
  indexing entry `i` at intra-list offset `k`.
* `nullptr` property pointers are modelled as `Option.none`; constructing a
  `PlyPropertyReader` from a null pointer (which dereferences it) is modelled
  by the distinguished outcome `Outcome.nullDeref`.
* The C++ routines mutate the output geometry and then return a `Status`; this
  is modelled by returning the pair `Outcome × PointCloud` (resp. `× Mesh`),
  so the partially populated output on an error path stays observable.
-/

/-- Primitive data types of PLY properties (draco `DataType`). -/
inductive DataType
  | DT_INVALID
  | DT_INT8
  | DT_UINT8
  | DT_INT16
  | DT_UINT16
  | DT_INT32
  | DT_UINT32
  | DT_INT64
  | DT_UINT64
  | DT_FLOAT32
  | DT_FLOAT64
deriving DecidableEq, Repr

/-- Semantic tags of geometry attributes (draco `GeometryAttribute::Type`),
restricted to the tags used by the PLY decoder. -/
inductive GeometryAttributeType
  | POSITION
  | NORMAL
  | COLOR
  | FDC
  | FREST
  | OPACITY
  | SCALE
  | ROT
deriving DecidableEq, Repr

/-- Status codes used by the decoder (draco `Status::Code`). -/
inductive StatusCode
  | DRACO_ERROR
  | INVALID_PARAMETER
deriving DecidableEq, Repr

/-- Result of one decoding routine.  `nullDeref` marks the undefined behaviour
of dereferencing a missing (`nullptr`) property. -/
inductive Outcome
  | ok
  | error (code : StatusCode) (msg : String)
  | nullDeref (what : String)
deriving DecidableEq, Repr

/-- A PLY property: name, declared primitive type, scalar per-entry values and,
for list-valued properties, the per-entry value lists. -/
structure PlyProperty where
  name : String
  data_type : DataType
  values : List Int
  is_list : Bool
  listEntries : List (List Nat)
deriving DecidableEq, Repr

/-- A PLY element: name, entry count and its properties. -/
structure PlyElement where
  name : String
  num_entries : Nat
  properties : List PlyProperty
deriving DecidableEq, Repr

/-- `PlyElement::GetPropertyByName`: first property with the given name,
`none` for a null pointer in the source. -/
def PlyElement.GetPropertyByName (e : PlyElement) (n : String) : Option PlyProperty :=
  e.properties.find? (fun p => p.name == n)

/-- `PlyProperty::GetListEntryNumValues` for a list property. -/
def PlyProperty.GetListEntryNumValues (p : PlyProperty) (i : Nat) : Nat :=
  (p.listEntries.getD i []).length

/-- `PlyPropertyReader<T>::ReadValue` on a scalar property: the stored value at
the entry index (numeric conversion is value-preserving, see file header). -/
def readValue (p : PlyProperty) (i : Nat) : Int :=
  p.values.getD i 0

/-- A geometry attribute of the output: semantic tag, primitive type, component
count, and the per-point value tuples written by the decoder. -/
structure PointAttribute where
  attribute_type : GeometryAttributeType
  data_type : DataType
  num_components : Nat
  values : List (List Int)
deriving DecidableEq, Repr

/-- The output point cloud: point count and ordered attribute list (the
position of an attribute in the list is its attribute id). -/
structure PointCloud where
  num_points : Nat
  attributes : List PointAttribute
deriving DecidableEq, Repr

/-- The output mesh: its triangle list (the point-cloud part of the mesh is
handled by `PointCloud`; face decoding only touches the face list). -/
structure Mesh where
  faces : List (Nat × Nat × Nat)
deriving DecidableEq, Repr

/-! ## Face decoding (`PlyDecoder::DecodeFaceData`, `CountNumTriangles`) -/

/-- `CountNumTriangles`: sum of `list_size - 2` over all polygon entries,
skipping entries with fewer than 3 values. -/
def CountNumTriangles (face_element : PlyElement) (vertex_indices : PlyProperty) : Nat :=
  (List.range face_element.num_entries).foldl
    (fun acc i =>
      let list_size := vertex_indices.GetListEntryNumValues i
      if list_size < 3 then acc else acc + (list_size - 2))
    0

/-- The triangle-emission loop of `DecodeFaceData`: for polygon `i`, skip it if
its list has fewer than 3 values, otherwise read the first index once and emit
one triangle per inner iteration `ti`, reading the indices at intra-list
offsets `ti + 1` and `ti + 2`.  Faces are appended in emission order. -/
def decodeFaceLoop (vertex_indices : PlyProperty) (num_polygons : Nat) :
    List (Nat × Nat × Nat) :=
  (List.range num_polygons).foldl
    (fun acc i =>
      let entry := vertex_indices.listEntries.getD i []
      let list_size := entry.length
      if list_size < 3 then acc
      else
        let face0 := entry.getD 0 0
        acc ++ (List.range (list_size - 2)).map
          (fun ti => (face0, entry.getD (ti + 1) 0, entry.getD (ti + 2) 0)))
    []

/-- Selection of the face index property: `vertex_indices` first, falling back
to `vertex_index` only when the former is absent. -/
def faceIndicesProperty (face_element : PlyElement) : Option PlyProperty :=
  match face_element.GetPropertyByName "vertex_indices" with
  | some p => some p
  | none => face_element.GetPropertyByName "vertex_index"

/-- `PlyDecoder::DecodeFaceData`: accept a missing face element (point cloud),
require a list-valued index property otherwise, then triangulate. -/
def DecodeFaceData (face_element : Option PlyElement) (m : Mesh) : Outcome × Mesh :=
  match face_element with
  | none => (Outcome.ok, m)
  | some fe =>
    match faceIndicesProperty fe with
    | none => (Outcome.error StatusCode.DRACO_ERROR "No faces defined", m)
    | some vertex_indices =>
      if vertex_indices.is_list then
        (Outcome.ok, { m with faces := decodeFaceLoop vertex_indices fe.num_entries })
      else
        (Outcome.error StatusCode.DRACO_ERROR "No faces defined", m)

/-- Modelled from the spec (refinement target for fan triangulation): triangle
`t` uses the first index, the index at offset `t + 1` and the index at offset
`t + 2`; a polygon of length `L` yields `L - 2` triangles (none for `L < 3`,
by truncated subtraction). -/
def fanTriangulationSpec (p : List Nat) : List (Nat × Nat × Nat) :=
  (List.range (p.length - 2)).map
    (fun t => (p.getD 0 0, p.getD (t + 1) 0, p.getD (t + 2) 0))

lemma fanTriangulationSpec_length (p : List Nat) :
    (fanTriangulationSpec p).length = p.length - 2 := by
  simp [fanTriangulationSpec]

lemma decodeFaceLoop_succ (vi : PlyProperty) (n : Nat) :
    decodeFaceLoop vi (n + 1) =
      decodeFaceLoop vi n ++ fanTriangulationSpec (vi.listEntries.getD n []) := by
  unfold decodeFaceLoop
  rw [List.range_succ, List.foldl_append]
  simp only [List.foldl_cons, List.foldl_nil]
  simp [fanTriangulationSpec]
  omega

lemma decodeFaceLoop_eq_flatMap (vi : PlyProperty) (n : Nat) :
    decodeFaceLoop vi n =
      ((List.range n).map (fun i => vi.listEntries.getD i [])).flatMap fanTriangulationSpec := by
  induction n with
  | zero => rfl
  | succ k ih =>
    rw [decodeFaceLoop_succ, ih, List.range_succ]
    simp

lemma CountNumTriangles_succ (fe : PlyElement) (vi : PlyProperty) (n : Nat)
    (hn : fe.num_entries = n + 1) :
    CountNumTriangles fe vi =
      CountNumTriangles { fe with num_entries := n } vi +
        ((vi.listEntries.getD n []).length - 2) := by
  unfold CountNumTriangles
  rw [hn]
  rw [List.range_succ, List.foldl_append]
  simp only [List.foldl_cons, List.foldl_nil]
  simp [PlyProperty.GetListEntryNumValues]
  omega

lemma decodeFaceLoop_length (fe : PlyElement) (vi : PlyProperty) (n : Nat)
    (hn : fe.num_entries = n) :
    (decodeFaceLoop vi n).length = CountNumTriangles fe vi := by
  induction n generalizing fe with
  | zero =>
    unfold decodeFaceLoop CountNumTriangles
    rw [hn]; rfl
  | succ k ih =>
    rw [decodeFaceLoop_succ, List.length_append,
        ih { fe with num_entries := k } rfl,
        CountNumTriangles_succ fe vi k hn, fanTriangulationSpec_length]

/-- The sum of `L - 2` over all polygon entries with `L ≥ 3` (entries with
`L < 3` contribute `0` because subtraction on `Nat` truncates). -/
def sumTrianglesSpec (vi : PlyProperty) (n : Nat) : Nat :=
  ((List.range n).map (fun i => (vi.listEntries.getD i []).length - 2)).sum

lemma CountNumTriangles_eq_sum (fe : PlyElement) (vi : PlyProperty) :
    CountNumTriangles fe vi = sumTrianglesSpec vi fe.num_entries := by
  have key : ∀ n (fe2 : PlyElement), fe2.num_entries = n →
      CountNumTriangles fe2 vi = sumTrianglesSpec vi n := by
    intro n
    induction n with
    | zero =>
      intro fe2 h
      unfold CountNumTriangles sumTrianglesSpec
      rw [h]; rfl
    | succ k ih =>
      intro fe2 h
      rw [CountNumTriangles_succ fe2 vi k h, ih { fe2 with num_entries := k } rfl]
      unfold sumTrianglesSpec
      rw [List.range_succ]
      simp
  exact key fe.num_entries fe rfl

/-! ## Vertex attribute decoding (`PlyDecoder::DecodeVertexData`) -/

/-- Append a freshly allocated and filled attribute to the point cloud
(`PointCloud::AddAttribute` followed by the per-vertex `SetAttributeValue`
loop; the attribute id of the new attribute is `pc.attributes.length`). -/
def addAttribute (pc : PointCloud) (t : GeometryAttributeType) (dt : DataType)
    (comps : Nat) (vals : List (List Int)) : PointCloud :=
  { pc with attributes := pc.attributes ++ [⟨t, dt, comps, vals⟩] }

/-- `PlyDecoder::ReadPropertiesToAttribute`: for each vertex `i`, read property
`k` at entry `i` for every `k` in order and write the tuple as value `i`. -/
def ReadPropertiesToAttribute (properties : List PlyProperty) (num_vertices : Nat) :
    List (List Int) :=
  (List.range num_vertices).map (fun i => properties.map (fun p => readValue p i))

/-- Sequencing of the early-return style of the source: run the continuation only
when the previous block succeeded. -/
def andThen (r : Outcome × PointCloud) (f : PointCloud → Outcome × PointCloud) :
    Outcome × PointCloud :=
  match r with
  | (Outcome.ok, pc) => f pc
  | other => other

/-- The position block of `DecodeVertexData`: types of x, y, z must agree and
be float32 or int32; on success a 3-component POSITION attribute is added and
filled via `ReadPropertiesToAttribute`. -/
def positionStep (e : PlyElement) (x_prop y_prop z_prop : PlyProperty)
    (pc : PointCloud) : Outcome × PointCloud :=
  if x_prop.data_type == y_prop.data_type && y_prop.data_type == z_prop.data_type then
    let dt := x_prop.data_type
    if dt == DataType.DT_FLOAT32 || dt == DataType.DT_INT32 then
      (Outcome.ok, addAttribute pc GeometryAttributeType.POSITION dt 3
        (ReadPropertiesToAttribute [x_prop, y_prop, z_prop] e.num_entries))
    else
      (Outcome.error StatusCode.INVALID_PARAMETER
        "x, y, and z properties must be of type float32 or int32", pc)
  else
    (Outcome.error StatusCode.INVALID_PARAMETER
      "x, y, and z properties must have the same type", pc)

/-- The normal block: nx, ny, nz all present and all float32, else silently
skipped. -/
def normalStep (e : PlyElement) (pc : PointCloud) : Outcome × PointCloud :=
  match e.GetPropertyByName "nx", e.GetPropertyByName "ny", e.GetPropertyByName "nz" with
  | some nx, some ny, some nz =>
    if nx.data_type == DataType.DT_FLOAT32 && ny.data_type == DataType.DT_FLOAT32 &&
        nz.data_type == DataType.DT_FLOAT32 then
      (Outcome.ok, addAttribute pc GeometryAttributeType.NORMAL DataType.DT_FLOAT32 3
        ((List.range e.num_entries).map
          (fun i => [readValue nx i, readValue ny i, readValue nz i])))
    else (Outcome.ok, pc)
  | _, _, _ => (Outcome.ok, pc)

/-- The color-DC block: f_dc_0, f_dc_1, f_dc_2 all present and all float32,
else silently skipped. -/
def fdcStep (e : PlyElement) (pc : PointCloud) : Outcome × PointCloud :=
  match e.GetPropertyByName "f_dc_0", e.GetPropertyByName "f_dc_1",
      e.GetPropertyByName "f_dc_2" with
  | some d0, some d1, some d2 =>
    if d0.data_type == DataType.DT_FLOAT32 && d1.data_type == DataType.DT_FLOAT32 &&
        d2.data_type == DataType.DT_FLOAT32 then
      (Outcome.ok, addAttribute pc GeometryAttributeType.FDC DataType.DT_FLOAT32 3
        ((List.range e.num_entries).map
          (fun i => [readValue d0 i, readValue d1 i, readValue d2 i])))
    else (Outcome.ok, pc)
  | _, _, _ => (Outcome.ok, pc)

/-- The 45 lookups `f_rest_0` … `f_rest_44`, in index order. -/
def frestProps (e : PlyElement) : List (Option PlyProperty) :=
  (List.range 45).map (fun k => e.GetPropertyByName ("f_rest_" ++ toString k))

/-- Extract a list from a list of options, failing on the first `none` (the
reader-construction loop dereferences every property unconditionally). -/
def sequenceOptions : List (Option PlyProperty) → Option (List PlyProperty)
  | [] => some []
  | none :: _ => none
  | some a :: rest => (sequenceOptions rest).map (fun l => a :: l)

/-- The guard of the color-rest block: presence of the first three bank
properties only. -/
def frest012Present (e : PlyElement) : Bool :=
  ((frestProps e).getD 0 none).isSome && ((frestProps e).getD 1 none).isSome &&
    ((frestProps e).getD 2 none).isSome

/-- All 45 color-rest bank properties are present. -/
def frestFull (e : PlyElement) : Bool :=
  (frestProps e).all (fun p => p.isSome)

/-- The color-rest block does not dereference a missing property: either the
guard fails or the full bank is present. -/
def frestSafe (e : PlyElement) : Bool :=
  !frest012Present e || frestFull e

/-- The color-rest block: guarded only by the presence of `f_rest_0`,
`f_rest_1`, `f_rest_2` — there is no data-type check — after which readers for
all 45 properties are constructed unconditionally; a missing property among
the remaining 42 is dereferenced, modelled as `Outcome.nullDeref`. -/
def frestStep (e : PlyElement) (pc : PointCloud) : Outcome × PointCloud :=
  if frest012Present e then
    match sequenceOptions (frestProps e) with
    | none =>
      (Outcome.nullDeref "PlyPropertyReader constructed from a missing f_rest property", pc)
    | some ps =>
      (Outcome.ok, addAttribute pc GeometryAttributeType.FREST DataType.DT_FLOAT32 45
        ((List.range e.num_entries).map (fun i => ps.map (fun p => readValue p i))))
  else (Outcome.ok, pc)

/-- The opacity block: `opacity` present and float32, else silently skipped. -/
def opacityStep (e : PlyElement) (pc : PointCloud) : Outcome × PointCloud :=
  match e.GetPropertyByName "opacity" with
  | some op =>
    if op.data_type == DataType.DT_FLOAT32 then
      (Outcome.ok, addAttribute pc GeometryAttributeType.OPACITY DataType.DT_FLOAT32 1
        ((List.range e.num_entries).map (fun i => [readValue op i])))
    else (Outcome.ok, pc)
  | none => (Outcome.ok, pc)

/-- The scale block: scale_0, scale_1, scale_2 all present and all float32,
else silently skipped. -/
def scaleStep (e : PlyElement) (pc : PointCloud) : Outcome × PointCloud :=
  match e.GetPropertyByName "scale_0", e.GetPropertyByName "scale_1",
      e.GetPropertyByName "scale_2" with
  | some s0, some s1, some s2 =>
    if s0.data_type == DataType.DT_FLOAT32 && s1.data_type == DataType.DT_FLOAT32 &&
        s2.data_type == DataType.DT_FLOAT32 then
      (Outcome.ok, addAttribute pc GeometryAttributeType.SCALE DataType.DT_FLOAT32 3
        ((List.range e.num_entries).map
          (fun i => [readValue s0 i, readValue s1 i, readValue s2 i])))
    else (Outcome.ok, pc)
  | _, _, _ => (Outcome.ok, pc)

/-- The rotation block: rot_0 … rot_3 all present and all float32, else
silently skipped. -/
def rotStep (e : PlyElement) (pc : PointCloud) : Outcome × PointCloud :=
  match e.GetPropertyByName "rot_0", e.GetPropertyByName "rot_1",
      e.GetPropertyByName "rot_2", e.GetPropertyByName "rot_3" with
  | some r0, some r1, some r2, some r3 =>
    if r0.data_type == DataType.DT_FLOAT32 && r1.data_type == DataType.DT_FLOAT32 &&
        r2.data_type == DataType.DT_FLOAT32 && r3.data_type == DataType.DT_FLOAT32 then
      (Outcome.ok, addAttribute pc GeometryAttributeType.ROT DataType.DT_FLOAT32 4
        ((List.range e.num_entries).map
          (fun i => [readValue r0 i, readValue r1 i, readValue r2 i, readValue r3 i])))
    else (Outcome.ok, pc)
  | _, _, _, _ => (Outcome.ok, pc)

/-- The four color channel lookups in the fixed order red, green, blue,
alpha, paired with the channel names used in error messages. -/
def colorChannels (e : PlyElement) : List (String × Option PlyProperty) :=
  [("red", e.GetPropertyByName "red"), ("green", e.GetPropertyByName "green"),
   ("blue", e.GetPropertyByName "blue"), ("alpha", e.GetPropertyByName "alpha")]

/-- `num_colors`: the number of present color channels. -/
def num_colors (e : PlyElement) : Nat :=
  (colorChannels e).foldl (fun acc c => if c.2.isSome then acc + 1 else acc) 0

/-- The reader-collection loop of the color block: skip absent channels, and
for each present channel require uint8 (first offender aborts with its
channel-specific message). -/
def colorCheckReaders :
    List (String × Option PlyProperty) → Except (StatusCode × String) (List PlyProperty)
  | [] => Except.ok []
  | (_, none) :: rest => colorCheckReaders rest
  | (cn, some p) :: rest =>
    if p.data_type == DataType.DT_UINT8 then
      (colorCheckReaders rest).map (fun l => p :: l)
    else
      Except.error (StatusCode.INVALID_PARAMETER,
        "Type of " ++ cn ++ " property must be uint8")

/-- The color block: if at least one of red, green, blue, alpha is present,
check each present channel is uint8 (fatal otherwise) and add a COLOR
attribute with one component per present channel, values in the fixed channel
order. -/
def colorStep (e : PlyElement) (pc : PointCloud) : Outcome × PointCloud :=
  if num_colors e ≠ 0 then
    match colorCheckReaders (colorChannels e) with
    | Except.error es => (Outcome.error es.1 es.2, pc)
    | Except.ok readers =>
      (Outcome.ok, addAttribute pc GeometryAttributeType.COLOR DataType.DT_UINT8
        (num_colors e)
        ((List.range e.num_entries).map (fun i => readers.map (fun p => readValue p i))))
  else (Outcome.ok, pc)

/-- `PlyDecoder::DecodeVertexData`: require the vertex element and its x, y, z
properties, set the point count, then run the attribute group blocks in the
fixed order of the source. -/
def DecodeVertexData (vertex_element : Option PlyElement) (pc : PointCloud) :
    Outcome × PointCloud :=
  match vertex_element with
  | none => (Outcome.error StatusCode.INVALID_PARAMETER "vertex_element is null", pc)
  | some e =>
    match e.GetPropertyByName "x", e.GetPropertyByName "y", e.GetPropertyByName "z" with
    | some x_prop, some y_prop, some z_prop =>
      let pc1 : PointCloud := { pc with num_points := e.num_entries }
      andThen (positionStep e x_prop y_prop z_prop pc1) (fun pc2 =>
        andThen (normalStep e pc2) (fun pc3 =>
          andThen (fdcStep e pc3) (fun pc4 =>
            andThen (frestStep e pc4) (fun pc5 =>
              andThen (opacityStep e pc5) (fun pc6 =>
                andThen (scaleStep e pc6) (fun pc7 =>
                  andThen (rotStep e pc7) (fun pc8 => colorStep e pc8)))))))
    | _, _, _ =>
      (Outcome.error StatusCode.INVALID_PARAMETER "x, y, or z property is missing", pc)

/-! ## Group predicates and the attribute each block appends -/

/-- Presence and float32 typing of the normal group (the guard of the normal
block). -/
def normalMatched (e : PlyElement) : Bool :=
  match e.GetPropertyByName "nx", e.GetPropertyByName "ny", e.GetPropertyByName "nz" with
  | some nx, some ny, some nz =>
    nx.data_type == DataType.DT_FLOAT32 && ny.data_type == DataType.DT_FLOAT32 &&
      nz.data_type == DataType.DT_FLOAT32
  | _, _, _ => false

/-- All three normal properties are present. -/
def normalPresent (e : PlyElement) : Bool :=
  (e.GetPropertyByName "nx").isSome && (e.GetPropertyByName "ny").isSome &&
    (e.GetPropertyByName "nz").isSome

/-- Presence and float32 typing of the color-DC group. -/
def fdcMatched (e : PlyElement) : Bool :=
  match e.GetPropertyByName "f_dc_0", e.GetPropertyByName "f_dc_1",
      e.GetPropertyByName "f_dc_2" with
  | some d0, some d1, some d2 =>
    d0.data_type == DataType.DT_FLOAT32 && d1.data_type == DataType.DT_FLOAT32 &&
      d2.data_type == DataType.DT_FLOAT32
  | _, _, _ => false

/-- All three color-DC properties are present. -/
def fdcPresent (e : PlyElement) : Bool :=
  (e.GetPropertyByName "f_dc_0").isSome && (e.GetPropertyByName "f_dc_1").isSome &&
    (e.GetPropertyByName "f_dc_2").isSome

/-- Presence and float32 typing of the opacity group. -/
def opacityMatched (e : PlyElement) : Bool :=
  match e.GetPropertyByName "opacity" with
  | some op => op.data_type == DataType.DT_FLOAT32
  | none => false

/-- The opacity property is present. -/
def opacityPresent (e : PlyElement) : Bool :=
  (e.GetPropertyByName "opacity").isSome

/-- Presence and float32 typing of the scale group. -/
def scaleMatched (e : PlyElement) : Bool :=
  match e.GetPropertyByName "scale_0", e.GetPropertyByName "scale_1",
      e.GetPropertyByName "scale_2" with
  | some s0, some s1, some s2 =>
    s0.data_type == DataType.DT_FLOAT32 && s1.data_type == DataType.DT_FLOAT32 &&
      s2.data_type == DataType.DT_FLOAT32
  | _, _, _ => false

/-- All three scale properties are present. -/
def scalePresent (e : PlyElement) : Bool :=
  (e.GetPropertyByName "scale_0").isSome && (e.GetPropertyByName "scale_1").isSome &&
    (e.GetPropertyByName "scale_2").isSome

/-- Presence and float32 typing of the rotation group. -/
def rotMatched (e : PlyElement) : Bool :=
  match e.GetPropertyByName "rot_0", e.GetPropertyByName "rot_1",
      e.GetPropertyByName "rot_2", e.GetPropertyByName "rot_3" with
  | some r0, some r1, some r2, some r3 =>
    r0.data_type == DataType.DT_FLOAT32 && r1.data_type == DataType.DT_FLOAT32 &&
      r2.data_type == DataType.DT_FLOAT32 && r3.data_type == DataType.DT_FLOAT32
  | _, _, _, _ => false

/-- All four rotation properties are present. -/
def rotPresent (e : PlyElement) : Bool :=
  (e.GetPropertyByName "rot_0").isSome && (e.GetPropertyByName "rot_1").isSome &&
    (e.GetPropertyByName "rot_2").isSome && (e.GetPropertyByName "rot_3").isSome

/-- Every present color channel has type uint8 (vacuously true when no channel
is present). -/
def colorTypesOk (e : PlyElement) : Bool :=
  (colorChannels e).all (fun c =>
    match c.2 with
    | some p => p.data_type == DataType.DT_UINT8
    | none => true)

/-- The present color channel properties, in the fixed order red, green, blue,
alpha. -/
def presentColorProps (e : PlyElement) : List PlyProperty :=
  ((colorChannels e).map Prod.snd).reduceOption

/-- Validity of the mandatory position group: x, y, z present, of one common
type, which is float32 or int32. -/
def posValid (e : PlyElement) : Bool :=
  match e.GetPropertyByName "x", e.GetPropertyByName "y", e.GetPropertyByName "z" with
  | some x, some y, some z =>
    (x.data_type == y.data_type && y.data_type == z.data_type) &&
      (x.data_type == DataType.DT_FLOAT32 || x.data_type == DataType.DT_INT32)
  | _, _, _ => false

/-- The POSITION attribute the position block adds on success. -/
def posAttr (e : PlyElement) (x_prop y_prop z_prop : PlyProperty) : PointAttribute :=
  ⟨GeometryAttributeType.POSITION, x_prop.data_type, 3,
    ReadPropertiesToAttribute [x_prop, y_prop, z_prop] e.num_entries⟩

/-- Attributes the normal block appends. -/
def addedNormal (e : PlyElement) : List PointAttribute :=
  match e.GetPropertyByName "nx", e.GetPropertyByName "ny", e.GetPropertyByName "nz" with
  | some nx, some ny, some nz =>
    if nx.data_type == DataType.DT_FLOAT32 && ny.data_type == DataType.DT_FLOAT32 &&
        nz.data_type == DataType.DT_FLOAT32 then
      [⟨GeometryAttributeType.NORMAL, DataType.DT_FLOAT32, 3,
        (List.range e.num_entries).map
          (fun i => [readValue nx i, readValue ny i, readValue nz i])⟩]
    else []
  | _, _, _ => []

/-- Attributes the color-DC block appends. -/
def addedFdc (e : PlyElement) : List PointAttribute :=
  match e.GetPropertyByName "f_dc_0", e.GetPropertyByName "f_dc_1",
      e.GetPropertyByName "f_dc_2" with
  | some d0, some d1, some d2 =>
    if d0.data_type == DataType.DT_FLOAT32 && d1.data_type == DataType.DT_FLOAT32 &&
        d2.data_type == DataType.DT_FLOAT32 then
      [⟨GeometryAttributeType.FDC, DataType.DT_FLOAT32, 3,
        (List.range e.num_entries).map
          (fun i => [readValue d0 i, readValue d1 i, readValue d2 i])⟩]
    else []
  | _, _, _ => []

/-- Attributes the color-rest block appends when it does not dereference a
missing property. -/
def addedFrest (e : PlyElement) : List PointAttribute :=
  if frest012Present e then
    [⟨GeometryAttributeType.FREST, DataType.DT_FLOAT32, 45,
      (List.range e.num_entries).map
        (fun i => ((frestProps e).reduceOption).map (fun p => readValue p i))⟩]
  else []

/-- Attributes the opacity block appends. -/
def addedOpacity (e : PlyElement) : List PointAttribute :=
  match e.GetPropertyByName "opacity" with
  | some op =>
    if op.data_type == DataType.DT_FLOAT32 then
      [⟨GeometryAttributeType.OPACITY, DataType.DT_FLOAT32, 1,
        (List.range e.num_entries).map (fun i => [readValue op i])⟩]
    else []
  | none => []

/-- Attributes the scale block appends. -/
def addedScale (e : PlyElement) : List PointAttribute :=
  match e.GetPropertyByName "scale_0", e.GetPropertyByName "scale_1",
      e.GetPropertyByName "scale_2" with
  | some s0, some s1, some s2 =>
    if s0.data_type == DataType.DT_FLOAT32 && s1.data_type == DataType.DT_FLOAT32 &&
        s2.data_type == DataType.DT_FLOAT32 then
      [⟨GeometryAttributeType.SCALE, DataType.DT_FLOAT32, 3,
        (List.range e.num_entries).map
          (fun i => [readValue s0 i, readValue s1 i, readValue s2 i])⟩]
    else []
  | _, _, _ => []

/-- Attributes the rotation block appends. -/
def addedRot (e : PlyElement) : List PointAttribute :=
  match e.GetPropertyByName "rot_0", e.GetPropertyByName "rot_1",
      e.GetPropertyByName "rot_2", e.GetPropertyByName "rot_3" with
  | some r0, some r1, some r2, some r3 =>
    if r0.data_type == DataType.DT_FLOAT32 && r1.data_type == DataType.DT_FLOAT32 &&
        r2.data_type == DataType.DT_FLOAT32 && r3.data_type == DataType.DT_FLOAT32 then
      [⟨GeometryAttributeType.ROT, DataType.DT_FLOAT32, 4,
        (List.range e.num_entries).map
          (fun i => [readValue r0 i, readValue r1 i, readValue r2 i, readValue r3 i])⟩]
    else []
  | _, _, _, _ => []

/-- Attributes the color block appends when all present channels are uint8. -/
def addedColor (e : PlyElement) : List PointAttribute :=
  if num_colors e ≠ 0 then
    [⟨GeometryAttributeType.COLOR, DataType.DT_UINT8, num_colors e,
      (List.range e.num_entries).map
        (fun i => (presentColorProps e).map (fun p => readValue p i))⟩]
  else []

/-! ## Normal forms of the vertex-data blocks -/

lemma normalStep_eq (e : PlyElement) (pc : PointCloud) :
    normalStep e pc = (Outcome.ok, { pc with attributes := pc.attributes ++ addedNormal e }) := by
  unfold normalStep addedNormal addAttribute
  cases e.GetPropertyByName "nx" <;> cases e.GetPropertyByName "ny" <;>
    cases e.GetPropertyByName "nz" <;> simp <;> split <;> simp

lemma fdcStep_eq (e : PlyElement) (pc : PointCloud) :
    fdcStep e pc = (Outcome.ok, { pc with attributes := pc.attributes ++ addedFdc e }) := by
  unfold fdcStep addedFdc addAttribute
  cases e.GetPropertyByName "f_dc_0" <;> cases e.GetPropertyByName "f_dc_1" <;>
    cases e.GetPropertyByName "f_dc_2" <;> simp <;> split <;> simp

lemma opacityStep_eq (e : PlyElement) (pc : PointCloud) :
    opacityStep e pc = (Outcome.ok, { pc with attributes := pc.attributes ++ addedOpacity e }) := by
  unfold opacityStep addedOpacity addAttribute
  cases e.GetPropertyByName "opacity" <;> simp <;> split <;> simp

lemma scaleStep_eq (e : PlyElement) (pc : PointCloud) :
    scaleStep e pc = (Outcome.ok, { pc with attributes := pc.attributes ++ addedScale e }) := by
  unfold scaleStep addedScale addAttribute
  cases e.GetPropertyByName "scale_0" <;> cases e.GetPropertyByName "scale_1" <;>
    cases e.GetPropertyByName "scale_2" <;> simp <;> split <;> simp

lemma rotStep_eq (e : PlyElement) (pc : PointCloud) :
    rotStep e pc = (Outcome.ok, { pc with attributes := pc.attributes ++ addedRot e }) := by
  unfold rotStep addedRot addAttribute
  cases e.GetPropertyByName "rot_0" <;> cases e.GetPropertyByName "rot_1" <;>
    cases e.GetPropertyByName "rot_2" <;> cases e.GetPropertyByName "rot_3" <;>
    simp <;> split <;> simp

lemma sequenceOptions_of_all_isSome (l : List (Option PlyProperty))
    (h : l.all (fun p => p.isSome) = true) :
    sequenceOptions l = some l.reduceOption := by
  induction l with
  | nil => rfl
  | cons hd tl ih =>
    cases hd with
    | none => simp at h
    | some a =>
      simp only [List.all_cons, Option.isSome_some, Bool.true_and] at h
      simp [sequenceOptions, ih h, List.reduceOption_cons_of_some]

lemma sequenceOptions_of_not_all (l : List (Option PlyProperty))
    (h : l.all (fun p => p.isSome) = false) :
    sequenceOptions l = none := by
  induction l with
  | nil => simp at h
  | cons hd tl ih =>
    cases hd with
    | none => rfl
    | some a =>
      simp only [List.all_cons, Option.isSome_some, Bool.true_and] at h
      simp [sequenceOptions, ih h]

lemma frestProps_length (e : PlyElement) : (frestProps e).length = 45 := by
  simp [frestProps]

lemma frest012Present_of_full (e : PlyElement) (h : frestFull e = true) :
    frest012Present e = true := by
  unfold frestFull at h
  rw [List.all_eq_true] at h
  have hlen := frestProps_length e
  have g : ∀ i, i < 45 → ((frestProps e).getD i none).isSome = true := by
    intro i hi
    have hi2 : i < (frestProps e).length := by omega
    rw [List.getD_eq_getElem?_getD, List.getElem?_eq_getElem hi2]
    exact h _ (List.getElem_mem hi2)
  unfold frest012Present
  rw [g 0 (by omega), g 1 (by omega), g 2 (by omega)]
  rfl

lemma frestStep_eq_of_full (e : PlyElement) (pc : PointCloud) (h : frestFull e = true) :
    frestStep e pc = (Outcome.ok, { pc with attributes := pc.attributes ++ addedFrest e }) := by
  have h012 := frest012Present_of_full e h
  unfold frestStep addedFrest
  rw [h012, sequenceOptions_of_all_isSome _ (by unfold frestFull at h; exact h)]
  simp [addAttribute]

lemma frestStep_eq_of_absent (e : PlyElement) (pc : PointCloud)
    (h : frest012Present e = false) :
    frestStep e pc = (Outcome.ok, { pc with attributes := pc.attributes ++ addedFrest e }) := by
  unfold frestStep addedFrest
  rw [h]
  simp

lemma frestStep_eq_of_safe (e : PlyElement) (pc : PointCloud) (h : frestSafe e = true) :
    frestStep e pc = (Outcome.ok, { pc with attributes := pc.attributes ++ addedFrest e }) := by
  unfold frestSafe at h
  cases h012 : frest012Present e with
  | false => exact frestStep_eq_of_absent e pc h012
  | true =>
    rw [h012] at h
    simp only [Bool.not_true, Bool.false_or] at h
    exact frestStep_eq_of_full e pc h

lemma frestStep_eq_nullDeref (e : PlyElement) (pc : PointCloud)
    (h012 : frest012Present e = true) (hfull : frestFull e = false) :
    frestStep e pc =
      (Outcome.nullDeref "PlyPropertyReader constructed from a missing f_rest property", pc) := by
  unfold frestStep
  rw [h012, sequenceOptions_of_not_all _ (by unfold frestFull at hfull; exact hfull)]
  simp

lemma positionStep_eq_ok (e : PlyElement) (x_prop y_prop z_prop : PlyProperty)
    (pc : PointCloud)
    (hsame : (x_prop.data_type == y_prop.data_type &&
      y_prop.data_type == z_prop.data_type) = true)
    (hdt : (x_prop.data_type == DataType.DT_FLOAT32 ||
      x_prop.data_type == DataType.DT_INT32) = true) :
    positionStep e x_prop y_prop z_prop pc =
      (Outcome.ok, { pc with attributes := pc.attributes ++ [posAttr e x_prop y_prop z_prop] }) := by
  unfold positionStep posAttr addAttribute
  rw [hsame]
  simp only [if_true]
  rw [hdt]
  simp

lemma positionStep_err_type (e : PlyElement) (x_prop y_prop z_prop : PlyProperty)
    (pc : PointCloud)
    (hsame : (x_prop.data_type == y_prop.data_type &&
      y_prop.data_type == z_prop.data_type) = false) :
    positionStep e x_prop y_prop z_prop pc =
      (Outcome.error StatusCode.INVALID_PARAMETER
        "x, y, and z properties must have the same type", pc) := by
  unfold positionStep
  rw [hsame]
  simp

lemma positionStep_err_dt (e : PlyElement) (x_prop y_prop z_prop : PlyProperty)
    (pc : PointCloud)
    (hsame : (x_prop.data_type == y_prop.data_type &&
      y_prop.data_type == z_prop.data_type) = true)
    (hdt : (x_prop.data_type == DataType.DT_FLOAT32 ||
      x_prop.data_type == DataType.DT_INT32) = false) :
    positionStep e x_prop y_prop z_prop pc =
      (Outcome.error StatusCode.INVALID_PARAMETER
        "x, y, and z properties must be of type float32 or int32", pc) := by
  unfold positionStep
  rw [hsame]
  simp only [if_true]
  rw [hdt]
  simp

lemma colorCheckReaders_ok (l : List (String × Option PlyProperty))
    (h : l.all (fun c =>
      match c.2 with
      | some p => p.data_type == DataType.DT_UINT8
      | none => true) = true) :
    colorCheckReaders l = Except.ok ((l.map Prod.snd).reduceOption) := by
  induction l with
  | nil => rfl
  | cons hd tl ih =>
    obtain ⟨cn, op⟩ := hd
    cases op with
    | none =>
      simp only [List.all_cons] at h
      simp only [colorCheckReaders, List.map_cons, List.reduceOption_cons_of_none]
      exact ih (by simpa using h)
    | some p =>
      rw [List.all_cons, Bool.and_eq_true] at h
      obtain ⟨h1, h2⟩ := h
      have h1b : (p.data_type == DataType.DT_UINT8) = true := h1
      simp only [colorCheckReaders, ih h2, List.map_cons,
        List.reduceOption_cons_of_some, Except.map, h1b, if_true]

lemma colorCheckReaders_err (l : List (String × Option PlyProperty))
    (h : l.all (fun c =>
      match c.2 with
      | some p => p.data_type == DataType.DT_UINT8
      | none => true) = false) :
    ∃ m, colorCheckReaders l = Except.error (StatusCode.INVALID_PARAMETER, m) := by
  induction l with
  | nil => simp at h
  | cons hd tl ih =>
    obtain ⟨cn, op⟩ := hd
    cases op with
    | none =>
      rw [List.all_cons] at h
      obtain ⟨m, hm⟩ := ih (by simpa using h)
      exact ⟨m, by simp [colorCheckReaders, hm]⟩
    | some p =>
      rw [List.all_cons] at h
      by_cases h1 : (p.data_type == DataType.DT_UINT8) = true
      · have h2 : tl.all (fun c =>
            match c.2 with
            | some p => p.data_type == DataType.DT_UINT8
            | none => true) = false := by
          have h1c : (match (cn, some p).2 with
            | some p => p.data_type == DataType.DT_UINT8
            | none => true) = true := h1
          rw [h1c, Bool.true_and] at h
          exact h
        obtain ⟨m, hm⟩ := ih h2
        refine ⟨m, ?_⟩
        simp only [colorCheckReaders, h1, if_true, hm, Except.map]
      · rw [Bool.not_eq_true] at h1
        refine ⟨"Type of " ++ cn ++ " property must be uint8", ?_⟩
        simp only [colorCheckReaders, h1]
        simp

lemma num_colors_eq_length_present (e : PlyElement) :
    num_colors e = (presentColorProps e).length := by
  unfold num_colors presentColorProps colorChannels
  cases e.GetPropertyByName "red" <;> cases e.GetPropertyByName "green" <;>
    cases e.GetPropertyByName "blue" <;> cases e.GetPropertyByName "alpha" <;>
    simp [List.foldl, List.reduceOption]

lemma num_colors_ne_zero_of_not_typesOk (e : PlyElement)
    (h : colorTypesOk e = false) : num_colors e ≠ 0 := by
  unfold colorTypesOk at h
  unfold num_colors
  unfold colorChannels at h ⊢
  cases hr : e.GetPropertyByName "red" <;> cases hg : e.GetPropertyByName "green" <;>
    cases hb : e.GetPropertyByName "blue" <;> cases ha : e.GetPropertyByName "alpha" <;>
    simp_all [List.foldl]

lemma colorStep_eq_of_ok (e : PlyElement) (pc : PointCloud)
    (h : colorTypesOk e = true) :
    colorStep e pc = (Outcome.ok, { pc with attributes := pc.attributes ++ addedColor e }) := by
  unfold colorStep addedColor
  by_cases hn : num_colors e ≠ 0
  · rw [if_pos hn, if_pos hn, colorCheckReaders_ok _ (by unfold colorTypesOk at h; exact h)]
    simp [addAttribute, presentColorProps]
  · rw [if_neg hn, if_neg hn]
    simp

lemma colorStep_err (e : PlyElement) (pc : PointCloud)
    (h : colorTypesOk e = false) :
    ∃ m, colorStep e pc = (Outcome.error StatusCode.INVALID_PARAMETER m, pc) := by
  unfold colorStep
  have hn := num_colors_ne_zero_of_not_typesOk e h
  obtain ⟨m, hm⟩ := colorCheckReaders_err (colorChannels e)
    (by unfold colorTypesOk at h; exact h)
  refine ⟨m, ?_⟩
  rw [if_pos hn, hm]

/-! ## Whole-decoder path lemmas -/

lemma decodeVertex_missing (e : PlyElement) (pc : PointCloud)
    (h : e.GetPropertyByName "x" = none ∨ e.GetPropertyByName "y" = none ∨
      e.GetPropertyByName "z" = none) :
    DecodeVertexData (some e) pc =
      (Outcome.error StatusCode.INVALID_PARAMETER "x, y, or z property is missing", pc) := by
  unfold DecodeVertexData
  cases h1 : e.GetPropertyByName "x" <;> cases h2 : e.GetPropertyByName "y" <;>
    cases h3 : e.GetPropertyByName "z" <;> simp_all

lemma decodeVertex_type_mismatch (e : PlyElement) (pc : PointCloud)
    (x_prop y_prop z_prop : PlyProperty)
    (hx : e.GetPropertyByName "x" = some x_prop)
    (hy : e.GetPropertyByName "y" = some y_prop)
    (hz : e.GetPropertyByName "z" = some z_prop)
    (hsame : (x_prop.data_type == y_prop.data_type &&
      y_prop.data_type == z_prop.data_type) = false) :
    DecodeVertexData (some e) pc =
      (Outcome.error StatusCode.INVALID_PARAMETER
        "x, y, and z properties must have the same type",
       { pc with num_points := e.num_entries }) := by
  simp only [DecodeVertexData, hx, hy, hz]
  simp only [positionStep_err_type e x_prop y_prop z_prop _ hsame, andThen]

lemma decodeVertex_bad_dt (e : PlyElement) (pc : PointCloud)
    (x_prop y_prop z_prop : PlyProperty)
    (hx : e.GetPropertyByName "x" = some x_prop)
    (hy : e.GetPropertyByName "y" = some y_prop)
    (hz : e.GetPropertyByName "z" = some z_prop)
    (hsame : (x_prop.data_type == y_prop.data_type &&
      y_prop.data_type == z_prop.data_type) = true)
    (hdt : (x_prop.data_type == DataType.DT_FLOAT32 ||
      x_prop.data_type == DataType.DT_INT32) = false) :
    DecodeVertexData (some e) pc =
      (Outcome.error StatusCode.INVALID_PARAMETER
        "x, y, and z properties must be of type float32 or int32",
       { pc with num_points := e.num_entries }) := by
  simp only [DecodeVertexData, hx, hy, hz]
  simp only [positionStep_err_dt e x_prop y_prop z_prop _ hsame hdt, andThen]

lemma decodeVertex_nullDeref (e : PlyElement) (pc : PointCloud)
    (x_prop y_prop z_prop : PlyProperty)
    (hx : e.GetPropertyByName "x" = some x_prop)
    (hy : e.GetPropertyByName "y" = some y_prop)
    (hz : e.GetPropertyByName "z" = some z_prop)
    (hsame : (x_prop.data_type == y_prop.data_type &&
      y_prop.data_type == z_prop.data_type) = true)
    (hdt : (x_prop.data_type == DataType.DT_FLOAT32 ||
      x_prop.data_type == DataType.DT_INT32) = true)
    (h012 : frest012Present e = true) (hfull : frestFull e = false) :
    DecodeVertexData (some e) pc =
      (Outcome.nullDeref "PlyPropertyReader constructed from a missing f_rest property",
       { pc with
         num_points := e.num_entries
         attributes := pc.attributes ++ [posAttr e x_prop y_prop z_prop] ++
           addedNormal e ++ addedFdc e }) := by
  simp only [DecodeVertexData, hx, hy, hz]
  simp only [positionStep_eq_ok e x_prop y_prop z_prop _ hsame hdt, andThen,
    normalStep_eq, fdcStep_eq, frestStep_eq_nullDeref e _ h012 hfull]

lemma decodeVertex_colorErr (e : PlyElement) (pc : PointCloud)
    (x_prop y_prop z_prop : PlyProperty)
    (hx : e.GetPropertyByName "x" = some x_prop)
    (hy : e.GetPropertyByName "y" = some y_prop)
    (hz : e.GetPropertyByName "z" = some z_prop)
    (hsame : (x_prop.data_type == y_prop.data_type &&
      y_prop.data_type == z_prop.data_type) = true)
    (hdt : (x_prop.data_type == DataType.DT_FLOAT32 ||
      x_prop.data_type == DataType.DT_INT32) = true)
    (hsafe : frestSafe e = true)
    (hcol : colorTypesOk e = false) :
    ∃ m, DecodeVertexData (some e) pc =
      (Outcome.error StatusCode.INVALID_PARAMETER m,
       { pc with
         num_points := e.num_entries
         attributes := pc.attributes ++ [posAttr e x_prop y_prop z_prop] ++
           addedNormal e ++ addedFdc e ++ addedFrest e ++ addedOpacity e ++
           addedScale e ++ addedRot e }) := by
  obtain ⟨m, hm⟩ := colorStep_err e
    { pc with
      num_points := e.num_entries
      attributes := pc.attributes ++ [posAttr e x_prop y_prop z_prop] ++
        addedNormal e ++ addedFdc e ++ addedFrest e ++ addedOpacity e ++
        addedScale e ++ addedRot e } hcol
  refine ⟨m, ?_⟩
  simp only [DecodeVertexData, hx, hy, hz]
  simp only [positionStep_eq_ok e x_prop y_prop z_prop _ hsame hdt, andThen,
    normalStep_eq, fdcStep_eq, frestStep_eq_of_safe e _ hsafe, opacityStep_eq,
    scaleStep_eq, rotStep_eq]
  exact hm

lemma decodeVertex_ok (e : PlyElement) (pc : PointCloud)
    (x_prop y_prop z_prop : PlyProperty)
    (hx : e.GetPropertyByName "x" = some x_prop)
    (hy : e.GetPropertyByName "y" = some y_prop)
    (hz : e.GetPropertyByName "z" = some z_prop)
    (hsame : (x_prop.data_type == y_prop.data_type &&
      y_prop.data_type == z_prop.data_type) = true)
    (hdt : (x_prop.data_type == DataType.DT_FLOAT32 ||
      x_prop.data_type == DataType.DT_INT32) = true)
    (hsafe : frestSafe e = true)
    (hcol : colorTypesOk e = true) :
    DecodeVertexData (some e) pc =
      (Outcome.ok,
       { pc with
         num_points := e.num_entries
         attributes := pc.attributes ++ [posAttr e x_prop y_prop z_prop] ++
           addedNormal e ++ addedFdc e ++ addedFrest e ++ addedOpacity e ++
           addedScale e ++ addedRot e ++ addedColor e }) := by
  simp only [DecodeVertexData, hx, hy, hz]
  simp only [positionStep_eq_ok e x_prop y_prop z_prop _ hsame hdt, andThen,
    normalStep_eq, fdcStep_eq, frestStep_eq_of_safe e _ hsafe, opacityStep_eq,
    scaleStep_eq, rotStep_eq, colorStep_eq_of_ok e _ hcol]

/-! ## Attribute kinds appended by each block -/

/-- Number of attributes of a given semantic tag in a list. -/
def kindCount (l : List PointAttribute) (t : GeometryAttributeType) : Nat :=
  (l.map PointAttribute.attribute_type).count t

lemma kindCount_append (a b : List PointAttribute) (t : GeometryAttributeType) :
    kindCount (a ++ b) t = kindCount a t + kindCount b t := by
  simp [kindCount]

lemma kinds_posAttr (e : PlyElement) (x_prop y_prop z_prop : PlyProperty) :
    [posAttr e x_prop y_prop z_prop].map PointAttribute.attribute_type =
      [GeometryAttributeType.POSITION] := rfl

lemma kinds_addedNormal (e : PlyElement) :
    (addedNormal e).map PointAttribute.attribute_type =
      if normalMatched e = true then [GeometryAttributeType.NORMAL] else [] := by
  unfold addedNormal normalMatched
  cases e.GetPropertyByName "nx" <;> cases e.GetPropertyByName "ny" <;>
    cases e.GetPropertyByName "nz" <;> simp <;> split <;> simp

lemma kinds_addedFdc (e : PlyElement) :
    (addedFdc e).map PointAttribute.attribute_type =
      if fdcMatched e = true then [GeometryAttributeType.FDC] else [] := by
  unfold addedFdc fdcMatched
  cases e.GetPropertyByName "f_dc_0" <;> cases e.GetPropertyByName "f_dc_1" <;>
    cases e.GetPropertyByName "f_dc_2" <;> simp <;> split <;> simp

lemma kinds_addedFrest (e : PlyElement) :
    (addedFrest e).map PointAttribute.attribute_type =
      if frest012Present e = true then [GeometryAttributeType.FREST] else [] := by
  unfold addedFrest
  split <;> simp_all

lemma kinds_addedOpacity (e : PlyElement) :
    (addedOpacity e).map PointAttribute.attribute_type =
      if opacityMatched e = true then [GeometryAttributeType.OPACITY] else [] := by
  unfold addedOpacity opacityMatched
  cases e.GetPropertyByName "opacity" <;> simp <;> split <;> simp

lemma kinds_addedScale (e : PlyElement) :
    (addedScale e).map PointAttribute.attribute_type =
      if scaleMatched e = true then [GeometryAttributeType.SCALE] else [] := by
  unfold addedScale scaleMatched
  cases e.GetPropertyByName "scale_0" <;> cases e.GetPropertyByName "scale_1" <;>
    cases e.GetPropertyByName "scale_2" <;> simp <;> split <;> simp

lemma kinds_addedRot (e : PlyElement) :
    (addedRot e).map PointAttribute.attribute_type =
      if rotMatched e = true then [GeometryAttributeType.ROT] else [] := by
  unfold addedRot rotMatched
  cases e.GetPropertyByName "rot_0" <;> cases e.GetPropertyByName "rot_1" <;>
    cases e.GetPropertyByName "rot_2" <;> cases e.GetPropertyByName "rot_3" <;>
    simp <;> split <;> simp

lemma kinds_addedColor (e : PlyElement) :
    (addedColor e).map PointAttribute.attribute_type =
      if num_colors e ≠ 0 then [GeometryAttributeType.COLOR] else [] := by
  unfold addedColor
  split <;> simp_all

lemma frestSafe_false_elim (e : PlyElement) (h : frestSafe e = false) :
    frest012Present e = true ∧ frestFull e = false := by
  unfold frestSafe at h
  cases hq : frest012Present e <;> cases hf : frestFull e <;> simp_all

/-- Along every path of the vertex decoder, an attribute tag that none of the
blocks can append keeps its count. -/
lemma kindCount_decode_eq (e : PlyElement) (pc : PointCloud) (t : GeometryAttributeType)
    (hpos : t ≠ GeometryAttributeType.POSITION)
    (h1 : kindCount (addedNormal e) t = 0) (h2 : kindCount (addedFdc e) t = 0)
    (h3 : kindCount (addedFrest e) t = 0) (h4 : kindCount (addedOpacity e) t = 0)
    (h5 : kindCount (addedScale e) t = 0) (h6 : kindCount (addedRot e) t = 0)
    (h7 : kindCount (addedColor e) t = 0) :
    kindCount (DecodeVertexData (some e) pc).2.attributes t = kindCount pc.attributes t := by
  cases hx : e.GetPropertyByName "x" with
  | none => rw [decodeVertex_missing e pc (Or.inl hx)]
  | some x_prop =>
  cases hy : e.GetPropertyByName "y" with
  | none => rw [decodeVertex_missing e pc (Or.inr (Or.inl hy))]
  | some y_prop =>
  cases hz : e.GetPropertyByName "z" with
  | none => rw [decodeVertex_missing e pc (Or.inr (Or.inr hz))]
  | some z_prop =>
  have hposcount : kindCount [posAttr e x_prop y_prop z_prop] t = 0 := by
    show List.count t [GeometryAttributeType.POSITION] = 0
    simp [List.count_eq_zero, hpos]
  cases hsame : (x_prop.data_type == y_prop.data_type &&
      y_prop.data_type == z_prop.data_type) with
  | false => rw [decodeVertex_type_mismatch e pc _ _ _ hx hy hz hsame]
  | true =>
  cases hdt : (x_prop.data_type == DataType.DT_FLOAT32 ||
      x_prop.data_type == DataType.DT_INT32) with
  | false => rw [decodeVertex_bad_dt e pc _ _ _ hx hy hz hsame hdt]
  | true =>
  cases hsafe : frestSafe e with
  | false =>
    obtain ⟨h012, hfull⟩ := frestSafe_false_elim e hsafe
    rw [decodeVertex_nullDeref e pc _ _ _ hx hy hz hsame hdt h012 hfull]
    simp only [kindCount_append, hposcount, h1, h2]
    simp
  | true =>
  cases hcol : colorTypesOk e with
  | false =>
    obtain ⟨m, hm⟩ := decodeVertex_colorErr e pc _ _ _ hx hy hz hsame hdt hsafe hcol
    rw [hm]
    simp only [kindCount_append, hposcount, h1, h2, h3, h4, h5, h6]
    simp
  | true =>
    rw [decodeVertex_ok e pc _ _ _ hx hy hz hsame hdt hsafe hcol]
    simp only [kindCount_append, hposcount, h1, h2, h3, h4, h5, h6, h7]
    simp

/-- A successful vertex decode pins down every guard along the way. -/
lemma decode_ok_elim (e : PlyElement) (pc : PointCloud)
    (h : (DecodeVertexData (some e) pc).1 = Outcome.ok) :
    ∃ x_prop y_prop z_prop,
      e.GetPropertyByName "x" = some x_prop ∧ e.GetPropertyByName "y" = some y_prop ∧
      e.GetPropertyByName "z" = some z_prop ∧
      (x_prop.data_type == y_prop.data_type &&
        y_prop.data_type == z_prop.data_type) = true ∧
      (x_prop.data_type == DataType.DT_FLOAT32 ||
        x_prop.data_type == DataType.DT_INT32) = true ∧
      frestSafe e = true ∧ colorTypesOk e = true := by
  cases hx : e.GetPropertyByName "x" with
  | none => rw [decodeVertex_missing e pc (Or.inl hx)] at h; simp at h
  | some x_prop =>
  cases hy : e.GetPropertyByName "y" with
  | none => rw [decodeVertex_missing e pc (Or.inr (Or.inl hy))] at h; simp at h
  | some y_prop =>
  cases hz : e.GetPropertyByName "z" with
  | none => rw [decodeVertex_missing e pc (Or.inr (Or.inr hz))] at h; simp at h
  | some z_prop =>
  cases hsame : (x_prop.data_type == y_prop.data_type &&
      y_prop.data_type == z_prop.data_type) with
  | false => rw [decodeVertex_type_mismatch e pc _ _ _ hx hy hz hsame] at h; simp at h
  | true =>
  cases hdt : (x_prop.data_type == DataType.DT_FLOAT32 ||
      x_prop.data_type == DataType.DT_INT32) with
  | false => rw [decodeVertex_bad_dt e pc _ _ _ hx hy hz hsame hdt] at h; simp at h
  | true =>
  cases hsafe : frestSafe e with
  | false =>
    obtain ⟨h012, hfull⟩ := frestSafe_false_elim e hsafe
    rw [decodeVertex_nullDeref e pc _ _ _ hx hy hz hsame hdt h012 hfull] at h
    simp at h
  | true =>
  cases hcol : colorTypesOk e with
  | false =>
    obtain ⟨m, hm⟩ := decodeVertex_colorErr e pc _ _ _ hx hy hz hsame hdt hsafe hcol
    rw [hm] at h
    simp at h
  | true =>
    exact ⟨x_prop, y_prop, z_prop, rfl, rfl, rfl, hsame, hdt, rfl, rfl⟩

/-- Unpack `posValid` into the three lookups and the two type conditions. -/
lemma posValid_elim (e : PlyElement) (h : posValid e = true) :
    ∃ x_prop y_prop z_prop,
      e.GetPropertyByName "x" = some x_prop ∧ e.GetPropertyByName "y" = some y_prop ∧
      e.GetPropertyByName "z" = some z_prop ∧
      (x_prop.data_type == y_prop.data_type &&
        y_prop.data_type == z_prop.data_type) = true ∧
      (x_prop.data_type == DataType.DT_FLOAT32 ||
        x_prop.data_type == DataType.DT_INT32) = true := by
  unfold posValid at h
  cases hx : e.GetPropertyByName "x" <;> rw [hx] at h
  case none => simp at h
  case some x_prop =>
  cases hy : e.GetPropertyByName "y" <;> rw [hy] at h
  case none => simp at h
  case some y_prop =>
  cases hz : e.GetPropertyByName "z" <;> rw [hz] at h
  case none => simp at h
  case some z_prop =>
  rw [Bool.and_eq_true] at h
  exact ⟨x_prop, y_prop, z_prop, rfl, rfl, rfl, h.1, h.2⟩

lemma getElem?_append_cons {α : Type} (l t : List α) (a : α) :
    (l ++ a :: t)[l.length]? = some a := by
  induction l with
  | nil => simp
  | cons hd tl ih => simpa using ih

lemma kindCount_posAttr_ne (e : PlyElement) (x_prop y_prop z_prop : PlyProperty)
    (t : GeometryAttributeType) (h : t ≠ GeometryAttributeType.POSITION) :
    kindCount [posAttr e x_prop y_prop z_prop] t = 0 := by
  show List.count t [GeometryAttributeType.POSITION] = 0
  simp [List.count_eq_zero, h]

lemma kindCount_addedNormal_ne (e : PlyElement) (t : GeometryAttributeType)
    (h : t ≠ GeometryAttributeType.NORMAL) : kindCount (addedNormal e) t = 0 := by
  unfold kindCount
  rw [kinds_addedNormal]
  split
  · simp [List.count_eq_zero, h]
  · rfl

lemma kindCount_addedFdc_ne (e : PlyElement) (t : GeometryAttributeType)
    (h : t ≠ GeometryAttributeType.FDC) : kindCount (addedFdc e) t = 0 := by
  unfold kindCount
  rw [kinds_addedFdc]
  split
  · simp [List.count_eq_zero, h]
  · rfl

lemma kindCount_addedFrest_ne (e : PlyElement) (t : GeometryAttributeType)
    (h : t ≠ GeometryAttributeType.FREST) : kindCount (addedFrest e) t = 0 := by
  unfold kindCount
  rw [kinds_addedFrest]
  split
  · simp [List.count_eq_zero, h]
  · rfl

lemma kindCount_addedOpacity_ne (e : PlyElement) (t : GeometryAttributeType)
    (h : t ≠ GeometryAttributeType.OPACITY) : kindCount (addedOpacity e) t = 0 := by
  unfold kindCount
  rw [kinds_addedOpacity]
  split
  · simp [List.count_eq_zero, h]
  · rfl

lemma kindCount_addedScale_ne (e : PlyElement) (t : GeometryAttributeType)
    (h : t ≠ GeometryAttributeType.SCALE) : kindCount (addedScale e) t = 0 := by
  unfold kindCount
  rw [kinds_addedScale]
  split
  · simp [List.count_eq_zero, h]
  · rfl

lemma kindCount_addedRot_ne (e : PlyElement) (t : GeometryAttributeType)
    (h : t ≠ GeometryAttributeType.ROT) : kindCount (addedRot e) t = 0 := by
  unfold kindCount
  rw [kinds_addedRot]
  split
  · simp [List.count_eq_zero, h]
  · rfl

lemma kindCount_addedColor_ne (e : PlyElement) (t : GeometryAttributeType)
    (h : t ≠ GeometryAttributeType.COLOR) : kindCount (addedColor e) t = 0 := by
  unfold kindCount
  rw [kinds_addedColor]
  split
  · simp [List.count_eq_zero, h]
  · rfl

lemma kindCount_addedNormal_unmatched (e : PlyElement) (h : normalMatched e = false) :
    kindCount (addedNormal e) GeometryAttributeType.NORMAL = 0 := by
  unfold kindCount
  rw [kinds_addedNormal, h]
  simp

lemma kindCount_addedFdc_unmatched (e : PlyElement) (h : fdcMatched e = false) :
    kindCount (addedFdc e) GeometryAttributeType.FDC = 0 := by
  unfold kindCount
  rw [kinds_addedFdc, h]
  simp

lemma kindCount_addedOpacity_unmatched (e : PlyElement) (h : opacityMatched e = false) :
    kindCount (addedOpacity e) GeometryAttributeType.OPACITY = 0 := by
  unfold kindCount
  rw [kinds_addedOpacity, h]
  simp

lemma kindCount_addedScale_unmatched (e : PlyElement) (h : scaleMatched e = false) :
    kindCount (addedScale e) GeometryAttributeType.SCALE = 0 := by
  unfold kindCount
  rw [kinds_addedScale, h]
  simp

lemma kindCount_addedRot_unmatched (e : PlyElement) (h : rotMatched e = false) :
    kindCount (addedRot e) GeometryAttributeType.ROT = 0 := by
  unfold kindCount
  rw [kinds_addedRot, h]
  simp

lemma kindCount_addedFrest_present (e : PlyElement) (h : frest012Present e = true) :
    kindCount (addedFrest e) GeometryAttributeType.FREST = 1 := by
  unfold kindCount
  rw [kinds_addedFrest, if_pos h]
  simp

lemma colorTypesOk_of_no_colors (e : PlyElement) (h : num_colors e = 0) :
    colorTypesOk e = true := by
  unfold num_colors colorChannels at h
  unfold colorTypesOk colorChannels
  cases hr : e.GetPropertyByName "red" <;> cases hg : e.GetPropertyByName "green" <;>
    cases hb : e.GetPropertyByName "blue" <;> cases ha : e.GetPropertyByName "alpha" <;>
    simp_all [List.foldl]

/-! ## Per-vertex loops are vacuous on an empty vertex element -/

lemma posAttr_values_nil (e : PlyElement) (x_prop y_prop z_prop : PlyProperty)
    (hn : e.num_entries = 0) : (posAttr e x_prop y_prop z_prop).values = [] := by
  simp [posAttr, ReadPropertiesToAttribute, hn]

lemma addedNormal_values_nil (e : PlyElement) (hn : e.num_entries = 0) :
    ∀ a ∈ addedNormal e, a.values = [] := by
  intro a ha
  unfold addedNormal at ha
  cases h1 : e.GetPropertyByName "nx" <;> simp only [h1] at ha
  case none => simp at ha
  case some =>
  cases h2 : e.GetPropertyByName "ny" <;> simp only [h2] at ha
  case none => simp at ha
  case some =>
  cases h3 : e.GetPropertyByName "nz" <;> simp only [h3] at ha
  case none => simp at ha
  case some =>
  split at ha
  · simp only [List.mem_singleton] at ha
    subst ha
    simp [hn]
  · simp at ha

lemma addedFdc_values_nil (e : PlyElement) (hn : e.num_entries = 0) :
    ∀ a ∈ addedFdc e, a.values = [] := by
  intro a ha
  unfold addedFdc at ha
  cases h1 : e.GetPropertyByName "f_dc_0" <;> simp only [h1] at ha
  case none => simp at ha
  case some =>
  cases h2 : e.GetPropertyByName "f_dc_1" <;> simp only [h2] at ha
  case none => simp at ha
  case some =>
  cases h3 : e.GetPropertyByName "f_dc_2" <;> simp only [h3] at ha
  case none => simp at ha
  case some =>
  split at ha
  · simp only [List.mem_singleton] at ha
    subst ha
    simp [hn]
  · simp at ha

lemma addedFrest_values_nil (e : PlyElement) (hn : e.num_entries = 0) :
    ∀ a ∈ addedFrest e, a.values = [] := by
  intro a ha
  unfold addedFrest at ha
  split at ha
  · simp only [List.mem_singleton] at ha
    subst ha
    simp [hn]
  · simp at ha

lemma addedOpacity_values_nil (e : PlyElement) (hn : e.num_entries = 0) :
    ∀ a ∈ addedOpacity e, a.values = [] := by
  intro a ha
  unfold addedOpacity at ha
  cases h1 : e.GetPropertyByName "opacity" <;> simp only [h1] at ha
  case none => simp at ha
  case some =>
  split at ha
  · simp only [List.mem_singleton] at ha
    subst ha
    simp [hn]
  · simp at ha

lemma addedScale_values_nil (e : PlyElement) (hn : e.num_entries = 0) :
    ∀ a ∈ addedScale e, a.values = [] := by
  intro a ha
  unfold addedScale at ha
  cases h1 : e.GetPropertyByName "scale_0" <;> simp only [h1] at ha
  case none => simp at ha
  case some =>
  cases h2 : e.GetPropertyByName "scale_1" <;> simp only [h2] at ha
  case none => simp at ha
  case some =>
  cases h3 : e.GetPropertyByName "scale_2" <;> simp only [h3] at ha
  case none => simp at ha
  case some =>
  split at ha
  · simp only [List.mem_singleton] at ha
    subst ha
    simp [hn]
  · simp at ha

lemma addedRot_values_nil (e : PlyElement) (hn : e.num_entries = 0) :
    ∀ a ∈ addedRot e, a.values = [] := by
  intro a ha
  unfold addedRot at ha
  cases h1 : e.GetPropertyByName "rot_0" <;> simp only [h1] at ha
  case none => simp at ha
  case some =>
  cases h2 : e.GetPropertyByName "rot_1" <;> simp only [h2] at ha
  case none => simp at ha
  case some =>
  cases h3 : e.GetPropertyByName "rot_2" <;> simp only [h3] at ha
  case none => simp at ha
  case some =>
  cases h4 : e.GetPropertyByName "rot_3" <;> simp only [h4] at ha
  case none => simp at ha
  case some =>
  split at ha
  · simp only [List.mem_singleton] at ha
    subst ha
    simp [hn]
  · simp at ha

lemma addedColor_values_nil (e : PlyElement) (hn : e.num_entries = 0) :
    ∀ a ∈ addedColor e, a.values = [] := by
  intro a ha
  unfold addedColor at ha
  split at ha
  · simp only [List.mem_singleton] at ha
    subst ha
    simp [hn]
  · simp at ha

/-- The fixed scan order of attribute kinds restricted to the matched groups
(the position group is mandatory on any successful decode). -/
def matchedKinds (e : PlyElement) : List GeometryAttributeType :=
  [GeometryAttributeType.POSITION] ++
  (if normalMatched e = true then [GeometryAttributeType.NORMAL] else []) ++
  (if fdcMatched e = true then [GeometryAttributeType.FDC] else []) ++
  (if frest012Present e = true then [GeometryAttributeType.FREST] else []) ++
  (if opacityMatched e = true then [GeometryAttributeType.OPACITY] else []) ++
  (if scaleMatched e = true then [GeometryAttributeType.SCALE] else []) ++
  (if rotMatched e = true then [GeometryAttributeType.ROT] else []) ++
  (if num_colors e ≠ 0 then [GeometryAttributeType.COLOR] else [])

/-! ## Concrete inputs used by counterexamples and witnesses -/

/-- A scalar (non-list) property. -/
def mkScalarProp (n : String) (dt : DataType) (vs : List Int) : PlyProperty :=
  ⟨n, dt, vs, false, []⟩

/-- The caller-allocated empty point cloud. -/
def pc0 : PointCloud := ⟨0, []⟩

/-- The caller-allocated empty mesh. -/
def m0 : Mesh := ⟨[]⟩

/-- A face index-list property with polygons of sizes 4, 2 and 3. -/
def pFaces : PlyProperty :=
  ⟨"vertex_indices", DataType.DT_INT32, [], true, [[0, 1, 2, 3], [5, 6], [7, 8, 9]]⟩

/-- A face element with the polygons of `pFaces`. -/
def feFaces : PlyElement := ⟨"face", 3, [pFaces]⟩

/-- A face element whose only `vertex_indices` property is not list-valued. -/
def feNoList : PlyElement :=
  ⟨"face", 0, [⟨"vertex_indices", DataType.DT_INT32, [], false, []⟩]⟩

/-! ## The claims -/

/-- C3: every polygon entry of the face index list with length
L ≥ 3 yields exactly L − 2 fan triangles — triangle t is (first index, index
at offset t + 1, index at offset t + 2) — emitted in polygon order and then
triangle order; in particular [a, b, c, d, e] yields (a, b, c), (a, c, d),
(a, d, e) in that order. -/
theorem c3_fan_triangulation :
    (∀ (vi : PlyProperty) (n : Nat),
      decodeFaceLoop vi n =
        ((List.range n).map (fun i => vi.listEntries.getD i [])).flatMap
          fanTriangulationSpec) ∧
    (∀ p : List Nat, (fanTriangulationSpec p).length = p.length - 2) ∧
    (∀ (p : List Nat) (t : Nat), t < p.length - 2 →
      (fanTriangulationSpec p)[t]? =
        some (p.getD 0 0, p.getD (t + 1) 0, p.getD (t + 2) 0)) ∧
    (∀ a b c d e : Nat,
      fanTriangulationSpec [a, b, c, d, e] = [(a, b, c), (a, c, d), (a, d, e)]) := by
  refine ⟨decodeFaceLoop_eq_flatMap, fanTriangulationSpec_length, ?_, ?_⟩
  · intro p t ht
    unfold fanTriangulationSpec
    simp [List.getElem?_range, ht]
  · intro a b c d e
    simp [fanTriangulationSpec, List.range_succ]

theorem c3_fan_triangulation_witness :
    1 < ([10, 11, 12, 13] : List Nat).length - 2 ∧
    (fanTriangulationSpec [10, 11, 12, 13])[1]? = some (10, 12, 13) :=
  ⟨by decide, by simpa using c3_fan_triangulation.2.2.1 [10, 11, 12, 13] 1 (by decide)⟩

/-- C4: with a list-valued index property found, face decoding succeeds, and
the final face count equals `CountNumTriangles` (the pre-sized bound) and the
sum of L − 2 over all polygons with L ≥ 3; short polygons contribute zero and
do not fail the decode. -/
theorem c4_face_count (fe : PlyElement) (vi : PlyProperty) (m : Mesh)
    (hsel : faceIndicesProperty fe = some vi) (hlist : vi.is_list = true) :
    (DecodeFaceData (some fe) m).1 = Outcome.ok ∧
    (DecodeFaceData (some fe) m).2.faces.length = CountNumTriangles fe vi ∧
    (DecodeFaceData (some fe) m).2.faces.length = sumTrianglesSpec vi fe.num_entries := by
  simp only [DecodeFaceData, hsel, hlist, if_true]
  refine ⟨trivial, ?_, ?_⟩
  · exact decodeFaceLoop_length fe vi _ rfl
  · rw [decodeFaceLoop_length fe vi _ rfl, CountNumTriangles_eq_sum]

theorem c4_face_count_witness :
    faceIndicesProperty feFaces = some pFaces ∧ pFaces.is_list = true ∧
    ((DecodeFaceData (some feFaces) m0).1 = Outcome.ok ∧
     (DecodeFaceData (some feFaces) m0).2.faces.length = CountNumTriangles feFaces pFaces ∧
     (DecodeFaceData (some feFaces) m0).2.faces.length =
       sumTrianglesSpec pFaces feFaces.num_entries) :=
  ⟨by decide, by decide, c4_face_count feFaces pFaces m0 (by decide) (by decide)⟩

/-- Whether the element has a list-valued property of the given name. -/
def hasListValuedProperty (e : PlyElement) (n : String) : Bool :=
  match e.GetPropertyByName n with
  | some p => p.is_list
  | none => false

/-- C7: an absent face element succeeds with zero faces; a face element with
neither a list-valued `vertex_indices` nor a list-valued `vertex_index`
property fails with the validation error "No faces defined". -/
theorem c7_face_presence (fe : PlyElement) (m : Mesh) :
    DecodeFaceData none m = (Outcome.ok, m) ∧
    (hasListValuedProperty fe "vertex_indices" = false →
      hasListValuedProperty fe "vertex_index" = false →
      DecodeFaceData (some fe) m =
        (Outcome.error StatusCode.DRACO_ERROR "No faces defined", m)) := by
  refine ⟨rfl, ?_⟩
  intro h1 h2
  unfold hasListValuedProperty at h1 h2
  simp only [DecodeFaceData, faceIndicesProperty]
  cases hvi : fe.GetPropertyByName "vertex_indices" with
  | some p =>
    simp only [hvi] at h1
    simp [h1]
  | none =>
    simp only [hvi] at h1
    cases hv2 : fe.GetPropertyByName "vertex_index" with
    | none => simp
    | some q =>
      simp only [hv2] at h2
      simp [h2]

theorem c7_face_presence_witness :
    hasListValuedProperty feNoList "vertex_indices" = false ∧
    hasListValuedProperty feNoList "vertex_index" = false ∧
    DecodeFaceData (some feNoList) m0 =
      (Outcome.error StatusCode.DRACO_ERROR "No faces defined", m0) ∧
    DecodeFaceData none m0 = (Outcome.ok, m0) :=
  ⟨by decide, by decide, (c7_face_presence feNoList m0).2 (by decide) (by decide),
    (c7_face_presence feNoList m0).1⟩

lemma same_type_bool (x_prop y_prop z_prop : PlyProperty) :
    (x_prop.data_type == y_prop.data_type &&
      y_prop.data_type == z_prop.data_type) = true ↔
    (x_prop.data_type = y_prop.data_type ∧ y_prop.data_type = z_prop.data_type) := by
  simp

lemma dt_ok_bool (x_prop : PlyProperty) :
    (x_prop.data_type == DataType.DT_FLOAT32 ||
      x_prop.data_type == DataType.DT_INT32) = true ↔
    (x_prop.data_type = DataType.DT_FLOAT32 ∨ x_prop.data_type = DataType.DT_INT32) := by
  simp

/-- C5: position is mandatory — a missing coordinate property is a fatal
validation error with nothing added; present coordinates with differing types
or a common type other than float32/int32 are fatal validation errors after
the point count was set, with nothing added; otherwise a 3-component POSITION
attribute of the common type is added at the next attribute id. -/
theorem c5_position_mandatory (e : PlyElement) (pc : PointCloud) :
    ((e.GetPropertyByName "x" = none ∨ e.GetPropertyByName "y" = none ∨
        e.GetPropertyByName "z" = none) →
      DecodeVertexData (some e) pc =
        (Outcome.error StatusCode.INVALID_PARAMETER "x, y, or z property is missing", pc)) ∧
    (∀ x_prop y_prop z_prop : PlyProperty,
      e.GetPropertyByName "x" = some x_prop →
      e.GetPropertyByName "y" = some y_prop →
      e.GetPropertyByName "z" = some z_prop →
      (¬ (x_prop.data_type = y_prop.data_type ∧ y_prop.data_type = z_prop.data_type) →
        DecodeVertexData (some e) pc =
          (Outcome.error StatusCode.INVALID_PARAMETER
            "x, y, and z properties must have the same type",
           { pc with num_points := e.num_entries })) ∧
      ((x_prop.data_type = y_prop.data_type ∧ y_prop.data_type = z_prop.data_type) →
        ¬ (x_prop.data_type = DataType.DT_FLOAT32 ∨
            x_prop.data_type = DataType.DT_INT32) →
        DecodeVertexData (some e) pc =
          (Outcome.error StatusCode.INVALID_PARAMETER
            "x, y, and z properties must be of type float32 or int32",
           { pc with num_points := e.num_entries })) ∧
      ((x_prop.data_type = y_prop.data_type ∧ y_prop.data_type = z_prop.data_type) →
        (x_prop.data_type = DataType.DT_FLOAT32 ∨ x_prop.data_type = DataType.DT_INT32) →
        (DecodeVertexData (some e) pc).2.attributes[pc.attributes.length]? =
          some (posAttr e x_prop y_prop z_prop))) := by
  refine ⟨decodeVertex_missing e pc, ?_⟩
  intro x_prop y_prop z_prop hx hy hz
  refine ⟨?_, ?_, ?_⟩
  · intro hne
    have hsameb : (x_prop.data_type == y_prop.data_type &&
        y_prop.data_type == z_prop.data_type) = false :=
      Bool.eq_false_iff.mpr (fun hb => hne ((same_type_bool _ _ _).mp hb))
    exact decodeVertex_type_mismatch e pc _ _ _ hx hy hz hsameb
  · intro hsame hnd
    have hsameb := (same_type_bool _ _ _).mpr hsame
    have hdtb : (x_prop.data_type == DataType.DT_FLOAT32 ||
        x_prop.data_type == DataType.DT_INT32) = false :=
      Bool.eq_false_iff.mpr (fun hb => hnd ((dt_ok_bool _).mp hb))
    exact decodeVertex_bad_dt e pc _ _ _ hx hy hz hsameb hdtb
  · intro hsame hdt
    have hsameb := (same_type_bool _ _ _).mpr hsame
    have hdtb := (dt_ok_bool _).mpr hdt
    cases hsafe : frestSafe e with
    | false =>
      obtain ⟨h012, hfull⟩ := frestSafe_false_elim e hsafe
      rw [decodeVertex_nullDeref e pc _ _ _ hx hy hz hsameb hdtb h012 hfull]
      simp only [List.append_assoc, List.singleton_append]
      exact getElem?_append_cons _ _ _
    | true =>
      cases hcol : colorTypesOk e with
      | false =>
        obtain ⟨m, hm⟩ := decodeVertex_colorErr e pc _ _ _ hx hy hz hsameb hdtb hsafe hcol
        rw [hm]
        simp only [List.append_assoc, List.singleton_append]
        exact getElem?_append_cons _ _ _
      | true =>
        rw [decodeVertex_ok e pc _ _ _ hx hy hz hsameb hdtb hsafe hcol]
        simp only [List.append_assoc, List.singleton_append]
        exact getElem?_append_cons _ _ _

/-- A float32 x property with one entry. -/
def pX : PlyProperty := mkScalarProp "x" DataType.DT_FLOAT32 [1]

/-- A float32 y property with one entry. -/
def pY : PlyProperty := mkScalarProp "y" DataType.DT_FLOAT32 [2]

/-- A float32 z property with one entry. -/
def pZ : PlyProperty := mkScalarProp "z" DataType.DT_FLOAT32 [3]

/-- A vertex element with no properties at all. -/
def eMissing : PlyElement := ⟨"vertex", 0, []⟩

/-- A vertex element with exactly one vertex carrying x, y, z. -/
def eXYZ : PlyElement := ⟨"vertex", 1, [pX, pY, pZ]⟩

theorem c5_position_mandatory_witness :
    (eMissing.GetPropertyByName "x" = none ∧
     DecodeVertexData (some eMissing) pc0 =
       (Outcome.error StatusCode.INVALID_PARAMETER "x, y, or z property is missing", pc0)) ∧
    (eXYZ.GetPropertyByName "x" = some pX ∧ eXYZ.GetPropertyByName "y" = some pY ∧
     eXYZ.GetPropertyByName "z" = some pZ ∧
     (DecodeVertexData (some eXYZ) pc0).2.attributes[pc0.attributes.length]? =
       some (posAttr eXYZ pX pY pZ)) :=
  ⟨⟨by decide, (c5_position_mandatory eMissing pc0).1 (Or.inl (by decide))⟩,
   ⟨by decide, by decide, by decide,
    ((c5_position_mandatory eXYZ pc0).2 pX pY pZ (by decide) (by decide) (by decide)).2.2
      (by decide) (by decide)⟩⟩

/-- A red color channel declared float32 (wrong type: must be uint8). -/
def pRedF32 : PlyProperty := mkScalarProp "red" DataType.DT_FLOAT32 [7]

/-- One vertex with valid positions and a mistyped red channel. -/
def eC9 : PlyElement := ⟨"vertex", 1, [pX, pY, pZ, pRedF32]⟩

/-- C9: no rollback — on this input the decode returns a validation error
while the point count has been set and the POSITION attribute has already been
added to the output. -/
theorem c9_no_rollback :
    (DecodeVertexData (some eC9) pc0).1 =
      Outcome.error StatusCode.INVALID_PARAMETER "Type of red property must be uint8" ∧
    (DecodeVertexData (some eC9) pc0).2.num_points = 1 ∧
    (DecodeVertexData (some eC9) pc0).2.attributes.map PointAttribute.attribute_type =
      [GeometryAttributeType.POSITION] :=
  ⟨by decide, by decide, by decide⟩

/-- One vertex carrying x, y, z and only the first three bank properties
f_rest_0, f_rest_1, f_rest_2. -/
def eC2 : PlyElement :=
  ⟨"vertex", 1, [pX, pY, pZ,
    mkScalarProp "f_rest_0" DataType.DT_FLOAT32 [0],
    mkScalarProp "f_rest_1" DataType.DT_FLOAT32 [0],
    mkScalarProp "f_rest_2" DataType.DT_FLOAT32 [0]]⟩

/-- C2: with f_rest_0, f_rest_1, f_rest_2 present and a higher-index bank
property absent, the decode commits to the 45-property bank and reaches the
dereference of a missing property (the branch is reachable, not dead code). -/
theorem c2_reads_through_missing_bank :
    frest012Present eC2 = true ∧ frestFull eC2 = false ∧
    (DecodeVertexData (some eC2) pc0).1 =
      Outcome.nullDeref "PlyPropertyReader constructed from a missing f_rest property" :=
  ⟨by decide, by decide, by decide⟩

/-- A zero-vertex element with float32 x, y, z and the full 45-property
f_rest bank declared float64 (failing the float32 type expectation). -/
def eC1 : PlyElement :=
  ⟨"vertex", 0,
    [mkScalarProp "x" DataType.DT_FLOAT32 [], mkScalarProp "y" DataType.DT_FLOAT32 [],
     mkScalarProp "z" DataType.DT_FLOAT32 []] ++
    (List.range 45).map
      (fun k => mkScalarProp ("f_rest_" ++ toString k) DataType.DT_FLOAT64 [])⟩

/-- C1 counterexample: all 45 color-rest properties are present and none is
float32, yet the decode succeeds AND adds the FREST attribute — the group is
not skipped, because the color-rest block performs no type check. -/
theorem c1_counterexample :
    frest012Present eC1 = true ∧ frestFull eC1 = true ∧
    (∀ p ∈ (frestProps eC1).reduceOption, p.data_type ≠ DataType.DT_FLOAT32) ∧
    (DecodeVertexData (some eC1) pc0).1 = Outcome.ok ∧
    kindCount (DecodeVertexData (some eC1) pc0).2.attributes
      GeometryAttributeType.FREST ≠ 0 :=
  ⟨by decide, by decide, by decide, by decide, by decide⟩

/-- A zero-vertex element with valid positions and a mistyped red channel. -/
def eC10 : PlyElement :=
  ⟨"vertex", 0,
    [mkScalarProp "x" DataType.DT_FLOAT32 [], mkScalarProp "y" DataType.DT_FLOAT32 [],
     mkScalarProp "z" DataType.DT_FLOAT32 [],
     mkScalarProp "red" DataType.DT_FLOAT64 []]⟩

/-- C10 counterexample: a zero-entry vertex element with valid x, y, z does
not always decode successfully — a present color channel of the wrong type
still fails even though every per-vertex loop is vacuous. -/
theorem c10_counterexample :
    eC10.num_entries = 0 ∧ posValid eC10 = true ∧
    (DecodeVertexData (some eC10) pc0).1 ≠ Outcome.ok :=
  ⟨by decide, by decide, by decide⟩

/-- C1 (amended): for the optional groups normal, color-DC, opacity, scale and
rotation, when all required properties are present but the float32 type check
fails, the group is silently skipped — no attribute of that kind is added and
no error arises from the group (given the rest of the decode is error-free,
the decode still succeeds).  The color-rest group is the exception: it has no
type check, so whenever f_rest_0..2 are present and the bank is complete, the
FREST attribute is added regardless of the declared types. -/
theorem c1_optional_group_type_skip (e : PlyElement) (pc : PointCloud) :
    (normalPresent e = true → normalMatched e = false →
      kindCount (DecodeVertexData (some e) pc).2.attributes GeometryAttributeType.NORMAL =
        kindCount pc.attributes GeometryAttributeType.NORMAL) ∧
    (fdcPresent e = true → fdcMatched e = false →
      kindCount (DecodeVertexData (some e) pc).2.attributes GeometryAttributeType.FDC =
        kindCount pc.attributes GeometryAttributeType.FDC) ∧
    (opacityPresent e = true → opacityMatched e = false →
      kindCount (DecodeVertexData (some e) pc).2.attributes GeometryAttributeType.OPACITY =
        kindCount pc.attributes GeometryAttributeType.OPACITY) ∧
    (scalePresent e = true → scaleMatched e = false →
      kindCount (DecodeVertexData (some e) pc).2.attributes GeometryAttributeType.SCALE =
        kindCount pc.attributes GeometryAttributeType.SCALE) ∧
    (rotPresent e = true → rotMatched e = false →
      kindCount (DecodeVertexData (some e) pc).2.attributes GeometryAttributeType.ROT =
        kindCount pc.attributes GeometryAttributeType.ROT) ∧
    (posValid e = true → frestSafe e = true → colorTypesOk e = true →
      (DecodeVertexData (some e) pc).1 = Outcome.ok) ∧
    (posValid e = true → frest012Present e = true → frestFull e = true →
      kindCount (DecodeVertexData (some e) pc).2.attributes GeometryAttributeType.FREST =
        kindCount pc.attributes GeometryAttributeType.FREST + 1) := by
  refine ⟨?_, ?_, ?_, ?_, ?_, ?_, ?_⟩
  · intro _ hm
    exact kindCount_decode_eq e pc _ (by decide)
      (kindCount_addedNormal_unmatched e hm)
      (kindCount_addedFdc_ne e _ (by decide))
      (kindCount_addedFrest_ne e _ (by decide))
      (kindCount_addedOpacity_ne e _ (by decide))
      (kindCount_addedScale_ne e _ (by decide))
      (kindCount_addedRot_ne e _ (by decide))
      (kindCount_addedColor_ne e _ (by decide))
  · intro _ hm
    exact kindCount_decode_eq e pc _ (by decide)
      (kindCount_addedNormal_ne e _ (by decide))
      (kindCount_addedFdc_unmatched e hm)
      (kindCount_addedFrest_ne e _ (by decide))
      (kindCount_addedOpacity_ne e _ (by decide))
      (kindCount_addedScale_ne e _ (by decide))
      (kindCount_addedRot_ne e _ (by decide))
      (kindCount_addedColor_ne e _ (by decide))
  · intro _ hm
    exact kindCount_decode_eq e pc _ (by decide)
      (kindCount_addedNormal_ne e _ (by decide))
      (kindCount_addedFdc_ne e _ (by decide))
      (kindCount_addedFrest_ne e _ (by decide))
      (kindCount_addedOpacity_unmatched e hm)
      (kindCount_addedScale_ne e _ (by decide))
      (kindCount_addedRot_ne e _ (by decide))
      (kindCount_addedColor_ne e _ (by decide))
  · intro _ hm
    exact kindCount_decode_eq e pc _ (by decide)
      (kindCount_addedNormal_ne e _ (by decide))
      (kindCount_addedFdc_ne e _ (by decide))
      (kindCount_addedFrest_ne e _ (by decide))
      (kindCount_addedOpacity_ne e _ (by decide))
      (kindCount_addedScale_unmatched e hm)
      (kindCount_addedRot_ne e _ (by decide))
      (kindCount_addedColor_ne e _ (by decide))
  · intro _ hm
    exact kindCount_decode_eq e pc _ (by decide)
      (kindCount_addedNormal_ne e _ (by decide))
      (kindCount_addedFdc_ne e _ (by decide))
      (kindCount_addedFrest_ne e _ (by decide))
      (kindCount_addedOpacity_ne e _ (by decide))
      (kindCount_addedScale_ne e _ (by decide))
      (kindCount_addedRot_unmatched e hm)
      (kindCount_addedColor_ne e _ (by decide))
  · intro hv hsafe hcol
    obtain ⟨x_prop, y_prop, z_prop, hx, hy, hz, hsame, hdt⟩ := posValid_elim e hv
    rw [decodeVertex_ok e pc _ _ _ hx hy hz hsame hdt hsafe hcol]
  · intro hv h012 hfull
    obtain ⟨x_prop, y_prop, z_prop, hx, hy, hz, hsame, hdt⟩ := posValid_elim e hv
    have hsafe : frestSafe e = true := by
      unfold frestSafe
      rw [hfull]
      simp
    cases hcol : colorTypesOk e with
    | true =>
      rw [decodeVertex_ok e pc _ _ _ hx hy hz hsame hdt hsafe hcol]
      simp only [kindCount_append,
        kindCount_posAttr_ne e x_prop y_prop z_prop GeometryAttributeType.FREST (by decide),
        kindCount_addedNormal_ne e GeometryAttributeType.FREST (by decide),
        kindCount_addedFdc_ne e GeometryAttributeType.FREST (by decide),
        kindCount_addedFrest_present e h012,
        kindCount_addedOpacity_ne e GeometryAttributeType.FREST (by decide),
        kindCount_addedScale_ne e GeometryAttributeType.FREST (by decide),
        kindCount_addedRot_ne e GeometryAttributeType.FREST (by decide),
        kindCount_addedColor_ne e GeometryAttributeType.FREST (by decide)]
    | false =>
      obtain ⟨m, hm⟩ := decodeVertex_colorErr e pc _ _ _ hx hy hz hsame hdt hsafe hcol
      rw [hm]
      simp only [kindCount_append,
        kindCount_posAttr_ne e x_prop y_prop z_prop GeometryAttributeType.FREST (by decide),
        kindCount_addedNormal_ne e GeometryAttributeType.FREST (by decide),
        kindCount_addedFdc_ne e GeometryAttributeType.FREST (by decide),
        kindCount_addedFrest_present e h012,
        kindCount_addedOpacity_ne e GeometryAttributeType.FREST (by decide),
        kindCount_addedScale_ne e GeometryAttributeType.FREST (by decide),
        kindCount_addedRot_ne e GeometryAttributeType.FREST (by decide)]

/-- A zero-vertex element with float32 positions, every other non-color
optional group fully present but declared float64, and the complete f_rest
bank declared float64. -/
def eW1 : PlyElement :=
  ⟨"vertex", 0,
    [mkScalarProp "x" DataType.DT_FLOAT32 [], mkScalarProp "y" DataType.DT_FLOAT32 [],
     mkScalarProp "z" DataType.DT_FLOAT32 [],
     mkScalarProp "nx" DataType.DT_FLOAT64 [], mkScalarProp "ny" DataType.DT_FLOAT64 [],
     mkScalarProp "nz" DataType.DT_FLOAT64 [],
     mkScalarProp "f_dc_0" DataType.DT_FLOAT64 [],
     mkScalarProp "f_dc_1" DataType.DT_FLOAT64 [],
     mkScalarProp "f_dc_2" DataType.DT_FLOAT64 [],
     mkScalarProp "opacity" DataType.DT_FLOAT64 [],
     mkScalarProp "scale_0" DataType.DT_FLOAT64 [],
     mkScalarProp "scale_1" DataType.DT_FLOAT64 [],
     mkScalarProp "scale_2" DataType.DT_FLOAT64 [],
     mkScalarProp "rot_0" DataType.DT_FLOAT64 [],
     mkScalarProp "rot_1" DataType.DT_FLOAT64 [],
     mkScalarProp "rot_2" DataType.DT_FLOAT64 [],
     mkScalarProp "rot_3" DataType.DT_FLOAT64 []] ++
    (List.range 45).map
      (fun k => mkScalarProp ("f_rest_" ++ toString k) DataType.DT_FLOAT64 [])⟩

theorem c1_optional_group_type_skip_witness :
    normalPresent eW1 = true ∧ normalMatched eW1 = false ∧
    fdcPresent eW1 = true ∧ fdcMatched eW1 = false ∧
    opacityPresent eW1 = true ∧ opacityMatched eW1 = false ∧
    scalePresent eW1 = true ∧ scaleMatched eW1 = false ∧
    rotPresent eW1 = true ∧ rotMatched eW1 = false ∧
    posValid eW1 = true ∧ frestSafe eW1 = true ∧ colorTypesOk eW1 = true ∧
    frest012Present eW1 = true ∧ frestFull eW1 = true ∧
    kindCount (DecodeVertexData (some eW1) pc0).2.attributes GeometryAttributeType.NORMAL =
      kindCount pc0.attributes GeometryAttributeType.NORMAL ∧
    kindCount (DecodeVertexData (some eW1) pc0).2.attributes GeometryAttributeType.FDC =
      kindCount pc0.attributes GeometryAttributeType.FDC ∧
    kindCount (DecodeVertexData (some eW1) pc0).2.attributes GeometryAttributeType.OPACITY =
      kindCount pc0.attributes GeometryAttributeType.OPACITY ∧
    kindCount (DecodeVertexData (some eW1) pc0).2.attributes GeometryAttributeType.SCALE =
      kindCount pc0.attributes GeometryAttributeType.SCALE ∧
    kindCount (DecodeVertexData (some eW1) pc0).2.attributes GeometryAttributeType.ROT =
      kindCount pc0.attributes GeometryAttributeType.ROT ∧
    (DecodeVertexData (some eW1) pc0).1 = Outcome.ok ∧
    kindCount (DecodeVertexData (some eW1) pc0).2.attributes GeometryAttributeType.FREST =
      kindCount pc0.attributes GeometryAttributeType.FREST + 1 :=
  ⟨by decide, by decide, by decide, by decide, by decide, by decide, by decide, by decide,
   by decide, by decide, by decide, by decide, by decide, by decide, by decide,
   (c1_optional_group_type_skip eW1 pc0).1 (by decide) (by decide),
   (c1_optional_group_type_skip eW1 pc0).2.1 (by decide) (by decide),
   (c1_optional_group_type_skip eW1 pc0).2.2.1 (by decide) (by decide),
   (c1_optional_group_type_skip eW1 pc0).2.2.2.1 (by decide) (by decide),
   (c1_optional_group_type_skip eW1 pc0).2.2.2.2.1 (by decide) (by decide),
   (c1_optional_group_type_skip eW1 pc0).2.2.2.2.2.1 (by decide) (by decide) (by decide),
   (c1_optional_group_type_skip eW1 pc0).2.2.2.2.2.2 (by decide) (by decide) (by decide)⟩

/-- C6: with the decode reaching the color block (valid positions, no f_rest
trap), a COLOR attribute is added iff at least one of red, green, blue, alpha
is present; it has one component per present channel and per-vertex values are
the values of the present channels in the fixed order red, green, blue, alpha; any
present channel not of type uint8 is a fatal validation error. -/
theorem c6_color_channels (e : PlyElement) (pc : PointCloud)
    (hpos : posValid e = true) (hsafe : frestSafe e = true) :
    (num_colors e = 0 →
      (DecodeVertexData (some e) pc).1 = Outcome.ok ∧
      kindCount (DecodeVertexData (some e) pc).2.attributes GeometryAttributeType.COLOR =
        kindCount pc.attributes GeometryAttributeType.COLOR) ∧
    (num_colors e ≠ 0 → colorTypesOk e = true →
      (DecodeVertexData (some e) pc).1 = Outcome.ok ∧
      num_colors e = (presentColorProps e).length ∧
      (DecodeVertexData (some e) pc).2.attributes.getLast? =
        some ⟨GeometryAttributeType.COLOR, DataType.DT_UINT8, num_colors e,
          (List.range e.num_entries).map
            (fun i => (presentColorProps e).map (fun p => readValue p i))⟩) ∧
    (colorTypesOk e = false →
      ∃ m, (DecodeVertexData (some e) pc).1 =
        Outcome.error StatusCode.INVALID_PARAMETER m) := by
  obtain ⟨x_prop, y_prop, z_prop, hx, hy, hz, hsame, hdt⟩ := posValid_elim e hpos
  refine ⟨?_, ?_, ?_⟩
  · intro h0
    have hcolOk := colorTypesOk_of_no_colors e h0
    rw [decodeVertex_ok e pc _ _ _ hx hy hz hsame hdt hsafe hcolOk]
    refine ⟨rfl, ?_⟩
    have hc0 : kindCount (addedColor e) GeometryAttributeType.COLOR = 0 := by
      unfold kindCount addedColor
      rw [if_neg (by omega)]
      rfl
    simp only [kindCount_append,
      kindCount_posAttr_ne e x_prop y_prop z_prop GeometryAttributeType.COLOR (by decide),
      kindCount_addedNormal_ne e GeometryAttributeType.COLOR (by decide),
      kindCount_addedFdc_ne e GeometryAttributeType.COLOR (by decide),
      kindCount_addedFrest_ne e GeometryAttributeType.COLOR (by decide),
      kindCount_addedOpacity_ne e GeometryAttributeType.COLOR (by decide),
      kindCount_addedScale_ne e GeometryAttributeType.COLOR (by decide),
      kindCount_addedRot_ne e GeometryAttributeType.COLOR (by decide), hc0]
    omega
  · intro hnc hcolOk
    rw [decodeVertex_ok e pc _ _ _ hx hy hz hsame hdt hsafe hcolOk]
    refine ⟨rfl, num_colors_eq_length_present e, ?_⟩
    have hsingle : addedColor e =
        [⟨GeometryAttributeType.COLOR, DataType.DT_UINT8, num_colors e,
          (List.range e.num_entries).map
            (fun i => (presentColorProps e).map (fun p => readValue p i))⟩] := by
      unfold addedColor
      rw [if_pos hnc]
    show (pc.attributes ++ [posAttr e x_prop y_prop z_prop] ++ addedNormal e ++
      addedFdc e ++ addedFrest e ++ addedOpacity e ++ addedScale e ++ addedRot e ++
      addedColor e).getLast? = _
    rw [hsingle, List.getLast?_concat]
  · intro hcol
    obtain ⟨m, hm⟩ := decodeVertex_colorErr e pc _ _ _ hx hy hz hsame hdt hsafe hcol
    exact ⟨m, by rw [hm]⟩

/-- One vertex with float32 positions and uint8 red and blue channels only. -/
def eRB : PlyElement :=
  ⟨"vertex", 1, [pX, pY, pZ,
    mkScalarProp "red" DataType.DT_UINT8 [200],
    mkScalarProp "blue" DataType.DT_UINT8 [17]]⟩

theorem c6_color_channels_witness :
    posValid eRB = true ∧ frestSafe eRB = true ∧ num_colors eRB ≠ 0 ∧
    colorTypesOk eRB = true ∧
    ((DecodeVertexData (some eRB) pc0).1 = Outcome.ok ∧
     num_colors eRB = (presentColorProps eRB).length ∧
     (DecodeVertexData (some eRB) pc0).2.attributes.getLast? =
       some ⟨GeometryAttributeType.COLOR, DataType.DT_UINT8, num_colors eRB,
         (List.range eRB.num_entries).map
           (fun i => (presentColorProps eRB).map (fun p => readValue p i))⟩) :=
  ⟨by decide, by decide, by decide, by decide,
   (c6_color_channels eRB pc0 (by decide) (by decide)).2.1 (by decide) (by decide)⟩

/-- C8: on a successful decode starting from an empty attribute list, the
attribute kinds of the output are exactly the fixed scan order position, normal,
color-DC, color-rest, opacity, scale, rotation, color restricted to the
matched groups, and the POSITION attribute always comes first (smallest
attribute id). -/
theorem c8_attribute_order (e : PlyElement) (pc : PointCloud)
    (hok : (DecodeVertexData (some e) pc).1 = Outcome.ok)
    (hempty : pc.attributes = []) :
    (DecodeVertexData (some e) pc).2.attributes.map PointAttribute.attribute_type =
      matchedKinds e ∧
    ((DecodeVertexData (some e) pc).2.attributes.map PointAttribute.attribute_type).head? =
      some GeometryAttributeType.POSITION := by
  obtain ⟨x_prop, y_prop, z_prop, hx, hy, hz, hsame, hdt, hsafe, hcol⟩ :=
    decode_ok_elim e pc hok
  rw [decodeVertex_ok e pc _ _ _ hx hy hz hsame hdt hsafe hcol]
  have hmap : (pc.attributes ++ [posAttr e x_prop y_prop z_prop] ++ addedNormal e ++
      addedFdc e ++ addedFrest e ++ addedOpacity e ++ addedScale e ++ addedRot e ++
      addedColor e).map PointAttribute.attribute_type = matchedKinds e := by
    simp only [List.map_append, hempty, kinds_addedNormal, kinds_addedFdc,
      kinds_addedFrest, kinds_addedOpacity, kinds_addedScale, kinds_addedRot,
      kinds_addedColor, kinds_posAttr]
    unfold matchedKinds
    simp [List.append_assoc]
  refine ⟨hmap, ?_⟩
  rw [show (Outcome.ok,
      ({ pc with
         num_points := e.num_entries
         attributes := pc.attributes ++ [posAttr e x_prop y_prop z_prop] ++ addedNormal e ++
           addedFdc e ++ addedFrest e ++ addedOpacity e ++ addedScale e ++ addedRot e ++
           addedColor e } : PointCloud)).2.attributes = pc.attributes ++
           [posAttr e x_prop y_prop z_prop] ++ addedNormal e ++
           addedFdc e ++ addedFrest e ++ addedOpacity e ++ addedScale e ++ addedRot e ++
           addedColor e from rfl, hmap]
  unfold matchedKinds
  simp

theorem c8_attribute_order_witness :
    (DecodeVertexData (some eW1) pc0).1 = Outcome.ok ∧ pc0.attributes = [] ∧
    ((DecodeVertexData (some eW1) pc0).2.attributes.map PointAttribute.attribute_type =
       matchedKinds eW1 ∧
     ((DecodeVertexData (some eW1) pc0).2.attributes.map
        PointAttribute.attribute_type).head? = some GeometryAttributeType.POSITION) :=
  ⟨by decide, rfl, c8_attribute_order eW1 pc0 (by decide) rfl⟩

/-- C10 (amended): a zero-entry vertex element with valid x, y, z decodes
successfully — provided every present color channel is uint8 and the f_rest
bank is not just partially present (otherwise the decode fails even with zero
vertices, since the type check and the reader construction run before any
per-vertex loop); the point count is set to 0, each matched group still adds
its attribute in scan order, and every attribute has an empty value list. -/
theorem c10_zero_entries (e : PlyElement) (pc : PointCloud)
    (hn : e.num_entries = 0) (hempty : pc.attributes = [])
    (hpos : posValid e = true) (hsafe : frestSafe e = true)
    (hcol : colorTypesOk e = true) :
    (DecodeVertexData (some e) pc).1 = Outcome.ok ∧
    (DecodeVertexData (some e) pc).2.num_points = 0 ∧
    (DecodeVertexData (some e) pc).2.attributes.map PointAttribute.attribute_type =
      matchedKinds e ∧
    ∀ a ∈ (DecodeVertexData (some e) pc).2.attributes, a.values = [] := by
  obtain ⟨x_prop, y_prop, z_prop, hx, hy, hz, hsame, hdt⟩ := posValid_elim e hpos
  have hok : (DecodeVertexData (some e) pc).1 = Outcome.ok := by
    rw [decodeVertex_ok e pc _ _ _ hx hy hz hsame hdt hsafe hcol]
  refine ⟨hok, ?_, (c8_attribute_order e pc hok hempty).1, ?_⟩
  · rw [decodeVertex_ok e pc _ _ _ hx hy hz hsame hdt hsafe hcol]
    exact hn
  · rw [decodeVertex_ok e pc _ _ _ hx hy hz hsame hdt hsafe hcol]
    intro a ha
    simp only [List.append_assoc] at ha
    rw [hempty, List.nil_append] at ha
    rcases List.mem_append.mp ha with h | ha
    · rw [List.mem_singleton.mp h]
      exact posAttr_values_nil e x_prop y_prop z_prop hn
    rcases List.mem_append.mp ha with h | ha
    · exact addedNormal_values_nil e hn a h
    rcases List.mem_append.mp ha with h | ha
    · exact addedFdc_values_nil e hn a h
    rcases List.mem_append.mp ha with h | ha
    · exact addedFrest_values_nil e hn a h
    rcases List.mem_append.mp ha with h | ha
    · exact addedOpacity_values_nil e hn a h
    rcases List.mem_append.mp ha with h | ha
    · exact addedScale_values_nil e hn a h
    rcases List.mem_append.mp ha with h | ha
    · exact addedRot_values_nil e hn a h
    · exact addedColor_values_nil e hn a ha

/-- A zero-vertex element with only x, y, z (float32). -/
def eZ : PlyElement :=
  ⟨"vertex", 0,
    [mkScalarProp "x" DataType.DT_FLOAT32 [], mkScalarProp "y" DataType.DT_FLOAT32 [],
     mkScalarProp "z" DataType.DT_FLOAT32 []]⟩

theorem c10_zero_entries_witness :
    eZ.num_entries = 0 ∧ posValid eZ = true ∧ frestSafe eZ = true ∧
    colorTypesOk eZ = true ∧
    ((DecodeVertexData (some eZ) pc0).1 = Outcome.ok ∧
     (DecodeVertexData (some eZ) pc0).2.num_points = 0 ∧
     (DecodeVertexData (some eZ) pc0).2.attributes.map PointAttribute.attribute_type =
       matchedKinds eZ ∧
     ∀ a ∈ (DecodeVertexData (some eZ) pc0).2.attributes, a.values = []) :=
  ⟨by decide, by decide, by decide, by decide,
   c10_zero_entries eZ pc0 (by decide) rfl (by decide) (by decide) (by decide)⟩
